import Mathlib

/-!
# Verification of the M-ILEA detection-and-scoring engine

Shallow embedding of the analysis pipeline of this repository
(src/cli/main.py and the modules under src/core/), together with proofs
settling the stated properties of its specification.

Conventions of the embedding:
* Python strings are Lean `String`s; `a in b` (substring test) is `pyIn a b`.
* Python numbers driving the scoring contracts are embedded as exact
  rationals `ℚ`; the Shannon-entropy computation (`math.log2`) is embedded
  over the reals `ℝ`.
* Python dictionaries with a fixed key set are embedded as structures whose
  optional keys are `Option` fields; `dict.get(k, d)` is `(field).getD d`.
* Fallible code is embedded with `Except`/`Option`.
-/

namespace MILEA

/-! ## Python string primitives -/

/-- Python `needle in hay` (substring containment). -/
def pyIn (needle hay : String) : Bool :=
  decide (needle.toList <:+: hay.toList)

/-- Python `s.lower()` (ASCII case folding, as used on the repository's data). -/
def pyLower (s : String) : String :=
  ⟨s.toList.map Char.toLower⟩

/-- Index of the first occurrence of `pat` in `l` (`str.find` /
`bytes.find`-style), if any. -/
def firstOccIdx {α : Type} [DecidableEq α] (pat l : List α) : Option Nat :=
  match l with
  | [] => if pat = [] then some 0 else none
  | _ :: t =>
    if pat.isPrefixOf l then some 0
    else (firstOccIdx pat t).map (· + 1)

/-- `re.search` of a pattern of the form `A.*B` (two literals in order):
matches iff some occurrence of `A` is followed, after its end, by an
occurrence of `B`.  Equivalently (first occurrences are optimal for
literal pieces): the first occurrence of `A` has `B` somewhere after it. -/
def seqContains2 (a b s : String) : Bool :=
  match firstOccIdx a.toList s.toList with
  | none => false
  | some i => (firstOccIdx b.toList (s.toList.drop (i + a.length))).isSome

/-- `re.search` of `A.*B.*C` (three literals in order). -/
def seqContains3 (a b c s : String) : Bool :=
  match firstOccIdx a.toList s.toList with
  | none => false
  | some i => seqContains2 b c ⟨s.toList.drop (i + a.length)⟩

/-- Python `s.strip()` (strip whitespace from both ends). -/
def pyStrip (s : String) : String :=
  ⟨(s.toList.dropWhile Char.isWhitespace).reverse.dropWhile Char.isWhitespace |>.reverse⟩

/-- Python `s.strip('"')` (strip double-quote characters from both ends). -/
def pyStripQuotes (s : String) : String :=
  ⟨(s.toList.dropWhile (· = '"')).reverse.dropWhile (· = '"') |>.reverse⟩

/-- Python `s.split(sep)[-1]`: the segment after the last separator
(`s` itself when the separator does not occur). -/
def splitLast (sep : String) (s : String) : String :=
  (s.splitOn sep).getLastD s

/-- Python list slice `l[a:b]` with non-negative clamped bounds. -/
def pySlice (l : List α) (a b : Nat) : List α :=
  (l.drop a).take (b - a)

/-- Python `range(a, b)` as a list of indices (empty when `b ≤ a`). -/
def pyRange (a b : Nat) : List Nat :=
  (List.range (b - a)).map (· + a)

/-- Python banker-free two-decimal rounding `round(x, 2)` on exact rationals:
ties do not arise at the values produced by the scoring formulas, so rounding
to the nearest multiple of `1/100` is faithful. -/
def round2 (q : ℚ) : ℚ :=
  (round (q * 100) : ℤ) / 100

/-! ## Data model (src/core/analyzer/models.py, src/core/native/models.py,
src/core/sinks/registry.py)

A sink definition is a JSON dictionary; the key set actually consulted by the
code is fixed, so it is embedded as a structure with `Option` fields for the
keys that some producers omit (`dict.get` with a default reads them).  The
`"type": "string_match"` key the registry writes on synthesized
string-indicator sinks is consulted nowhere in the pipeline and is left out. -/

structure SinkDef where
  name : String
  /-- `sink.get("match_type", "fqn")` — absent on synthesized sinks. -/
  match_type : Option String := none
  risk : String
  layer : String
  /-- `sink.get("dual_use", False)`. -/
  dual_use : Bool := false
  /-- `sink.get("context_hint", {}).get("suspicious_args", [])`. -/
  suspicious_args : List String := []
  /-- `sink.get("confidence", …)` on synthesized string-match sinks. -/
  confidence : Option ℚ := none
  /-- `sink.get("syscall_id")`. -/
  syscall_id : Option Nat := none
  /-- `sink.get("has_string_match", False)`: probed by the scorer's duck-typed
  `_get_val`; no sink literal in the source nor the catalog schema (§6 of the
  spec) carries this key, so every constructor leaves it `none`. -/
  has_string_match : Option Bool := none
  deriving Repr, DecidableEq

/-- One scanned occurrence.  `SinkHit` (Java) and `NativeSinkHit` (native) are
distinct dataclasses duck-typed into the same consumers; both expose exactly
the fields below (the native one fixes `class_name = "NativeCode"`,
`method_name = "BinaryInstruction"`, `line_number = 0`), so they are embedded
as a single structure.  Neither dataclass defines a `confidence_level`
attribute and no code in the repository sets one on a hit instance, so the
field that scorer.py probes with `getattr(signal, 'confidence_level', None)`
is embedded as an `Option` that every constructor leaves at `none`. -/
structure Hit where
  sink : SinkDef
  class_name : String := "NativeCode"
  method_name : String := "BinaryInstruction"
  line_number : Nat := 0
  arguments : List String := []
  conditional : Bool := false
  is_obfuscated : Bool := false
  context_snippet : List String := []
  layer : String := "Native"
  -- NativeSinkHit-only fields (absent, i.e. `none`, on Java hits):
  library : Option String := none
  offset : Option String := none
  evidence : Option String := none
  is_syscall : Bool := false
  is_symbol : Bool := false
  is_string_based : Bool := false
  -- getattr(signal, 'confidence_level', None): never an attribute of a hit.
  confidence_level : Option ℚ := none
  deriving Repr, DecidableEq

/-- The `location` dictionary built by the pattern matchers
(`{"class": …, "method": …, "line": …, "layer": …}`) and later enriched by the
localization engine (`file_path`, `full_signature`); keys never written are
`none`. -/
structure Location where
  cls : String
  method : String
  line : Nat
  layer : String
  file_path : Option String := none
  full_signature : Option String := none
  /-- `location.get("native_offset", 0)`: no code writes this key. -/
  native_offset : Option Nat := none
  /-- `location.get("sink_metadata", {})`: no code writes this key. -/
  sink_metadata : Option SinkDef := none
  deriving Repr, DecidableEq

/-- src/core/analyzer/models.py `ProtectionCandidate`. -/
structure ProtectionCandidate where
  pattern_type : String
  location : Location
  evidence : String
  impact_hint : String
  confidence_signal : Hit
  confidence_level : Option ℚ := none
  deriving Repr, DecidableEq

/-- src/core/scoring/scorer.py `ConfidenceScorer.breakdown`. -/
structure ScoreBreakdown where
  api_match : Bool
  string_indicator : Bool
  control_flow : Bool
  native_layer : Bool
  explicit_audit_confidence : Option ℚ
  deriving Repr, DecidableEq

/-- src/core/localization/models.py `LocalizedProtection`. -/
structure LocalizedProtection where
  pattern_type : String
  impact_hint : String
  location : Location
  evidence : String
  confidence_score : ℚ
  confidence_breakdown : ScoreBreakdown
  deriving Repr, DecidableEq

/-! ## Confidence scorer (src/core/scoring/scorer.py, the class used by the
live localization pipeline) -/

namespace ConfidenceScorer

/-- `_get_val(signal, "has_string_match")`: the attribute does not exist on a
hit, so the probe falls through to `signal.sink.get("has_string_match", False)`. -/
def getValHasStringMatch (signal : Hit) : Bool :=
  signal.sink.has_string_match.getD false

/-- `ConfidenceScorer.score`.  Weights: api 0.4, string 0.3, logic 0.2,
native 0.1.  The explicit-confidence branch fires only when the probed
`confidence_level` attribute exists on the signal object. -/
def score (signal : Hit) : ℚ :=
  match signal.confidence_level with
  | some explicit => round2 explicit
  | none =>
    let s : ℚ := 0.4
    let s := if getValHasStringMatch signal then s + 0.3 else s
    let s := if signal.conditional then s + 0.2 else s
    let s := if signal.layer = "Native" then s + 0.1 else s
    round2 (min s 1.0)

/-- `ConfidenceScorer.breakdown`. -/
def breakdown (signal : Hit) : ScoreBreakdown where
  api_match := true
  string_indicator := getValHasStringMatch signal
  control_flow := signal.conditional
  native_layer := signal.layer = "Native"
  explicit_audit_confidence := signal.confidence_level

end ConfidenceScorer

/-! ## Localization engine (src/core/localization/engine.py and pipeline.py) -/

namespace LocalizationEngine

/-- `_clean_method_name`: `re.sub(r'\(.*\).*', '()', method)` — when the
method string has a `(` with a later `)`, everything from the first `(` on is
replaced by `()`; otherwise the string is unchanged. -/
def cleanMethodName (method : String) : String :=
  match firstOccIdx ['('] method.toList with
  | none => method
  | some i =>
    if (firstOccIdx [')'] (method.toList.drop (i + 1))).isSome then
      ⟨method.toList.take i⟩ ++ "()"
    else method

/-- The per-candidate body of `LocalizationEngine.process` (its `try:` block;
no statement in it can raise on the embedded data, so every candidate is
localized). -/
def processOne (candidate : ProtectionCandidate) :
    ProtectionCandidate × ℚ × ScoreBreakdown :=
  let raw_method := candidate.location.method
  let clean_method := cleanMethodName raw_method
  let class_name := candidate.location.cls
  let file_path := ⟨class_name.toList.map (fun c => if c = '.' then '/' else c)⟩ ++ ".java"
  let location := { candidate.location with
    method := clean_method
    file_path := some file_path
    full_signature := some (class_name ++ " -> " ++ clean_method) }
  ({ candidate with location := location },
   ConfidenceScorer.score candidate.confidence_signal,
   ConfidenceScorer.breakdown candidate.confidence_signal)

/-- `LocalizationPipeline.process`: localize every candidate and wrap it
into a `LocalizedProtection`. -/
def pipelineProcess (candidates : List ProtectionCandidate) :
    List LocalizedProtection :=
  candidates.map (fun c =>
    let (c', score, bd) := processOne c
    { pattern_type := c'.pattern_type
      impact_hint := c'.impact_hint
      location := c'.location
      evidence := c'.evidence
      confidence_score := score
      confidence_breakdown := bd })

end LocalizationEngine

/-! ## Sink knowledge base (src/core/sinks/registry.py)

The two catalogs are external JSON files (`data/sink_catalog.json`,
`data/indicators.json`) that are not part of the source tree; their parsed
shape, as consumed by the code, is modelled from the spec (§4.1, §6). -/

/-- The parsed sink catalog: a top-level map of category name to
`{"sinks": [...]}` (spec §6). -/
def Catalog := List (String × List SinkDef)

/-- Modelled from the spec: the parsed `data/indicators.json`, which is not
under src/.  Spec §6 gives its keys (`root_indicators`, `emulator_indicators`,
`utility_methods_to_ignore`, `anti_analysis` with `anti_debugging`,
`anti_instrumentation` and `signature_verification` groups) and notes that the
root/emulator sub-objects further subdivide into the package / execution /
file-existence / telephony / hardware / build-property / kernel-property
groups consumed by the audit matchers (§4.5).  The registry (§4.1) iterates
`root_indicators` / `emulator_indicators` as flat indicator-string sequences;
that flat view is carried in `rootFlat` / `emulatorFlat`, separately from the
audits' group fields, because the spec specifies both consumers' behavior
while the concrete JSON value backing them is not in the source tree. -/
structure Indicators where
  rootFlat : List String := []
  emulatorFlat : List String := []
  package_checks : List String := []
  execution_commands : List String := []
  file_existence_checks : List String := []
  telephony : List String := []
  hardware_strings : List String := []
  build_fingerprint : List String := []
  build_model : List String := []
  build_device : List String := []
  kernel_properties : List String := []
  anti_debugging : List String := []
  anti_instrumentation : List String := []
  signature_verification : List String := []
  utility_methods_to_ignore : List String := []
  deriving Repr, DecidableEq

/-- `_load_indicators` failure default:
`{"root_indicators": [], "emulator_indicators": []}` (and the audit matchers'
own load failures likewise degrade every group to empty). -/
def Indicators.empty : Indicators := {}

/-- Modelled from the spec: the concrete indicator contents used as inputs in
the settled scenarios, following spec §4.5 and the audit modules' docstrings
(known root-binary paths `/system/bin/su`, `/sbin/su`,
`/system/app/Superuser.apk`; root-app packages; root-check commands `su`,
`which su`, `id`; emulator hardware/property markers; anti-analysis API and
framework markers). -/
def specIndicators : Indicators where
  rootFlat := ["/system/bin/su", "/sbin/su", "/system/app/Superuser.apk", "magisk"]
  emulatorFlat := ["goldfish", "ranchu", "vbox86"]
  package_checks := ["com.noshufou.android.su", "eu.chainfire.supersu", "com.topjohnwu.magisk"]
  execution_commands := ["su", "which su", "id"]
  file_existence_checks := ["/system/bin/su", "/sbin/su", "/system/app/Superuser.apk"]
  telephony := ["Android"]
  hardware_strings := ["goldfish", "ranchu", "vbox86"]
  build_fingerprint := ["generic"]
  build_model := ["google_sdk", "Emulator", "Android SDK built for x86"]
  build_device := ["generic"]
  kernel_properties := ["ro.kernel.qemu", "ro.hardware.virtual_device"]
  anti_debugging := ["isDebuggerConnected", "FLAG_DEBUGGABLE"]
  anti_instrumentation := ["frida", "xposed", "LD_PRELOAD"]
  signature_verification := ["getPackageInfo", "GET_SIGNATURES"]
  utility_methods_to_ignore := []

/-- Post-construction state of `SinkRegistry`: the flattened sink list and the
indicator data. -/
structure SinkRegistry where
  flattened_sinks : List SinkDef
  indicators : Indicators
  deriving Repr, DecidableEq

namespace SinkRegistry

/-- `_flatten_catalog`: every `sinks` list of every category, in order. -/
def flattenCatalog (catalog : Catalog) : List SinkDef :=
  (catalog.map Prod.snd).flatten

/-- `SinkRegistry.__init__(catalog_path)`.  Both loads catch their own
exceptions (registry.py lines 15–21 and 29–34) and fall back to an empty
catalog resp. empty indicator sets, so construction itself never raises; this
is recorded by the `Except` result always being `ok`. -/
def init (catalogLoad : Option Catalog) (indicatorsLoad : Option Indicators) :
    Except String SinkRegistry :=
  .ok
    { flattened_sinks := flattenCatalog (catalogLoad.getD [])
      indicators := indicatorsLoad.getD Indicators.empty }

/-- `match_sink(api_call)`.  The `regex` branch delegates to Python's `re`
engine, an external library; it is abstracted as the parameter `re_search`
(no registry in the settled scenarios carries a regex-typed sink). -/
def matchSink (re_search : String → String → Bool) (reg : SinkRegistry)
    (api_call : String) : Option SinkDef :=
  reg.flattened_sinks.findSome? fun sink =>
    let match_type := sink.match_type.getD "fqn"
    let target_name := sink.name
    if match_type = "fqn" then
      if pyIn target_name api_call || pyIn api_call target_name then some sink else none
    else if match_type = "regex" then
      if re_search target_name api_call then some sink else none
    else if match_type = "native" then
      if api_call = target_name then some sink else none
    else if match_type = "path" then
      if pyIn target_name api_call then some sink else none
    else none

/-- `match_string_indicator(string_val)`. -/
def matchStringIndicator (reg : SinkRegistry) (string_val : String) :
    Option SinkDef :=
  if (reg.indicators.rootFlat.find? fun ind => pyIn ind string_val).isSome then
    some { name := string_val, layer := "Java", risk := "Root Detection",
           confidence := some 0.8, match_type := none }
  else if (reg.indicators.emulatorFlat.find? fun ind => pyIn ind string_val).isSome then
    some { name := string_val, layer := "Java", risk := "Emulator Detection",
           confidence := some 0.8, match_type := none }
  else none

/-- `is_security_relevant_call(sink, call_args)` (the `sink` argument is
non-`None` in every caller reached by the settled scenarios). -/
def isSecurityRelevantCall (sink : SinkDef) (call_args : List String) : Bool :=
  if !sink.dual_use then true
  else call_args.any fun arg => sink.suspicious_args.any fun susp => pyIn susp arg

/-- `match_native_syscall(syscall_id)`. -/
def matchNativeSyscall (reg : SinkRegistry) (syscall_id : Nat) : Option SinkDef :=
  reg.flattened_sinks.find? fun sink => sink.syscall_id = some syscall_id

/-- `get_native_symbols()` — "Digunakan oleh Native Scanner". -/
def getNativeSymbols (reg : SinkRegistry) : List SinkDef :=
  reg.flattened_sinks.filter fun sink => sink.layer = "Native"

end SinkRegistry

/-! ## Bytecode scanner (src/core/analyzer/java_scanner.py, analyzer.py) -/

namespace JavaSinkScanner

/-- The register-list capture of `re.search(r"\{([^\}]+)\}", line)`: the first
`{` whose following run of non-`}` characters is nonempty and closed by `}`. -/
def findBraceGroup : List Char → Option (List Char)
  | [] => none
  | c :: rest =>
    if c = '{' then
      let content := rest.takeWhile (· ≠ '}')
      if content ≠ [] ∧ content.length < rest.length then some content
      else findBraceGroup rest
    else findBraceGroup rest

/-- The capture of `re.search(r"(L[^;]+;)->([^\(]+)", line)`: the leftmost
`L…;` group directly followed by `->` and a nonempty run of non-`(`
characters. -/
def findFqnGroups : List Char → Option (List Char × List Char)
  | [] => none
  | c :: rest =>
    if c = 'L' then
      let classPart := rest.takeWhile (· ≠ ';')
      let ok :=
        if classPart ≠ [] ∧ classPart.length < rest.length then
          let after := rest.drop (classPart.length + 1)
          if after.take 2 = ['-', '>'] then
            let methodPart := (after.drop 2).takeWhile (· ≠ '(')
            if methodPart ≠ [] then some (classPart, methodPart) else none
          else none
        else none
      match ok with
      | some r => some r
      | none => findFqnGroups rest
    else findFqnGroups rest

/-- `_extract_invoke(line)`: the register list and the dotted fully-qualified
call target (`""` when the smali pattern is absent).  `lstrip("L")` removes
every leading `L`, `rstrip(";")` the trailing `;`, and `/` becomes `.`. -/
def extractInvoke (line : String) : String × List String :=
  let registers :=
    match findBraceGroup line.toList with
    | some content => (String.mk content).splitOn "," |>.map pyStrip
    | none => []
  let api_call :=
    match findFqnGroups line.toList with
    | some (classPart, methodPart) =>
      let cleaned := (classPart.dropWhile (· = 'L')).map fun c => if c = '/' then '.' else c
      String.mk cleaned ++ "." ++ String.mk methodPart
    | none => ""
  (api_call, registers)

/-- `_resolve_arguments`: walk backward from `idx - 1` down to
`max(-1, idx - 15) + 1`, appending (most recent first) the literal of every
`const-string <reg>,` line that loads an involved register. -/
def resolveArguments (code_lines : List String) (idx : Nat)
    (registers : List String) : List String :=
  ((pyRange (idx - 14) idx).reverse).flatMap fun i =>
    let line := code_lines.getD i ""
    registers.filterMap fun reg =>
      if pyIn ("const-string " ++ reg ++ ",") line then
        some (pyStripQuotes (pyStrip (splitLast "," line)))
      else none

/-- `re.search(r'(if-|cmp|throw|return|const/4.*1|const/4.*0)', line)`. -/
def decisionOpcodeSearch (line : String) : Bool :=
  pyIn "if-" line || pyIn "cmp" line || pyIn "throw" line || pyIn "return" line ||
  seqContains2 "const/4" "1" line || seqContains2 "const/4" "0" line

/-- `re.search(r'(move-result|move|sput|iput)', line)`. -/
def moveOpcodeSearch (line : String) : Bool :=
  pyIn "move-result" line || pyIn "move" line || pyIn "sput" line || pyIn "iput" line

/-- `_is_decision_logic_context(code_lines, idx)` (its `sink_name` /
`string_value` keyword arguments are never read in the body). -/
def isDecisionLogicContext (code_lines : List String) (idx : Nat) : Bool :=
  ((pyRange (idx - 5) (min code_lines.length (idx + 5))).any fun i =>
    let line := code_lines.getD i ""
    decisionOpcodeSearch line || pyIn "throw" line) ||
  ((pyRange idx (min code_lines.length (idx + 3))).any fun i =>
    moveOpcodeSearch (code_lines.getD i ""))

/-- `scan_method(class_name, method_name, code_lines)`: one pass over the
lines; an invocation line that matches a sink, or otherwise a
literal-string-load line whose literal matches a string indicator, emits one
`SinkHit`. -/
def scanMethod (re_search : String → String → Bool) (reg : SinkRegistry)
    (class_name method_name : String) (code_lines : List String) : List Hit :=
  let is_obfuscated := method_name.length ≤ 2
  (List.range code_lines.length).filterMap fun idx =>
    let line := code_lines.getD idx ""
    if pyIn "invoke-" line then
      let (api_call, registers) := extractInvoke line
      match reg.matchSink re_search api_call with
      | some sink =>
        some { sink := sink
               class_name := class_name
               method_name := method_name
               line_number := idx + 1
               arguments := resolveArguments code_lines idx registers
               conditional := isDecisionLogicContext code_lines idx
               is_obfuscated := is_obfuscated
               context_snippet := pySlice code_lines (idx - 2) (idx + 3)
               layer := "Java" }
      | none => none
    else if pyIn "const-string" line then
      let string_val := pyStripQuotes (pyStrip (splitLast "," line))
      match reg.matchStringIndicator string_val with
      | some sink =>
        some { sink := sink
               class_name := class_name
               method_name := method_name
               line_number := idx + 1
               arguments := [string_val]
               conditional := isDecisionLogicContext code_lines idx
               is_obfuscated := is_obfuscated
               context_snippet := [pyStrip line]
               layer := "Java" }
      | none => none
    else none

end JavaSinkScanner

/-- A decompiled class as delivered by the external decompilation backend:
a name and the methods' (name, instruction lines) pairs. -/
structure DecompiledClass where
  name : String
  methods : List (String × List String)
  deriving Repr, DecidableEq

/-- src/core/analyzer/analyzer.py `StaticAnalyzer.analyze`. -/
def StaticAnalyzer.analyze (re_search : String → String → Bool)
    (reg : SinkRegistry) (classes : List DecompiledClass) : List Hit :=
  classes.flatMap fun cls =>
    cls.methods.flatMap fun m =>
      JavaSinkScanner.scanMethod re_search reg cls.name m.1 m.2

/-! ## Pattern matchers (src/core/patterns/) -/

/-- `min(confidence + 0.05, 1.0)` applied when the hit is inside decision
logic — the conditional-bonus idiom shared by the audit matchers. -/
def condBonus (c : ℚ) (is_conditional : Bool) : ℚ :=
  if is_conditional then min (c + 0.05) 1.0 else c

/-- `re.search(r'.*_utils$', m)`. -/
def endsUtilsSearch (m : String) : Bool := m.endsWith "_utils"

/-- `re.search(r'^get[a-z]*$', m)`: the whole string is `get` followed by
lowercase letters only. -/
def getterOnlySearch (m : String) : Bool :=
  m.startsWith "get" && (m.toList.drop 3).all fun c => 'a' ≤ c && c ≤ 'z'

namespace SSLPinningPattern

/-- src/core/patterns/communication.py `SSLPinningPattern.match` (`match` is a
Lean keyword, hence `tryMatch`). -/
def tryMatch (frameworks : List String) (sink_hit : Hit) :
    Option ProtectionCandidate :=
  if sink_hit.sink.risk = "Secure Communication" then
    let advanced := frameworks.contains "Flutter" || sink_hit.sink.layer = "Native"
    some { pattern_type :=
             if advanced then "Advanced SSL Pinning (Framework-level)" else "SSL Pinning"
           location := { cls := sink_hit.class_name, method := sink_hit.method_name,
                         line := sink_hit.line_number, layer := sink_hit.layer }
           evidence := "Secure channel enforcement via " ++ sink_hit.sink.name
           impact_hint :=
             if advanced then "Blocks traffic interception (BoringSSL/Flutter/Native)"
             else "Blocks traffic interception"
           confidence_signal := sink_hit
           confidence_level := none }
  else none

end SSLPinningPattern

namespace RootDetectionAudit

/-- `_is_utility_function` of root_detection_audit.py. -/
def isUtilityFunction (ind : Indicators) (sink_hit : Hit) : Bool :=
  let m := pyLower sink_hit.method_name
  pyIn "tohex" m || pyIn "hexto" m || seqContains2 "byte" "array" m ||
  pyIn "encode" m || pyIn "decode" m || seqContains2 "format" "string" m ||
  pyIn "serialize" m || pyIn "deserialize" m || seqContains2 "parse" "json" m ||
  endsUtilsSearch m || getterOnlySearch m ||
  seqContains2 "init" "array" m || seqContains2 "fill" "array" m ||
  ind.utility_methods_to_ignore.any fun u => pyIn (pyLower u) m

/-- `_check_package_manager_detection`. -/
def checkPackageManagerDetection (ind : Indicators) (args : List String)
    (sink_name : String) (is_conditional : Bool) : Option (ℚ × String) :=
  args.findSome? fun arg => ind.package_checks.findSome? fun package =>
    if pyIn (pyLower package) (pyLower arg) then
      some (condBonus 0.9 is_conditional,
            "Root app package check: " ++ package ++ " detected in " ++ sink_name)
    else none

/-- `_check_execution_detection`. -/
def checkExecutionDetection (ind : Indicators) (args : List String)
    (sink_name : String) (is_conditional : Bool) : Option (ℚ × String) :=
  if pyIn "exec" (pyLower sink_name) || pyIn "Runtime" sink_name then
    args.findSome? fun arg => ind.execution_commands.findSome? fun cmd =>
      if pyLower cmd = pyLower arg || pyIn (" " ++ cmd) (pyLower (" " ++ arg)) then
        some (condBonus 0.9 is_conditional,
              "Root execution check: '" ++ cmd ++ "' command via " ++ sink_name)
      else none
  else none

/-- `_check_file_existence_detection`: file-existence checks are considered
only when the hit is inside decision logic, and then yield the bare `MEDIUM`
level 0.7 — this branch applies no conditional bonus. -/
def checkFileExistenceDetection (ind : Indicators) (args : List String)
    (is_conditional : Bool) : Option (ℚ × String) :=
  if !is_conditional then none
  else
    args.findSome? fun arg => ind.file_existence_checks.findSome? fun file_path =>
      if pyIn (pyLower file_path) (pyLower arg) then
        some (0.7, "Root file check: " ++ file_path ++ " in decision logic")
      else none

/-- The three mount-check regexes `mount.*-o.*rw`, `mount.*system`,
`ro\.secure`, searched against the lowercased argument. -/
def mountPatternSearch (a : String) : Option Nat :=
  if seqContains3 "mount" "-o" "rw" a then some 0
  else if seqContains2 "mount" "system" a then some 1
  else if pyIn "ro.secure" a then some 2
  else none

/-- `_check_mount_detection`. -/
def checkMountDetection (args : List String) (sink_name : String)
    (is_conditional : Bool) : Option (ℚ × String) :=
  args.findSome? fun arg =>
    if (mountPatternSearch (pyLower arg)).isSome then
      some (condBonus 0.7 is_conditional,
            "Mount/RO-FS check: " ++ arg ++ " detected in " ++ sink_name)
    else none

/-- `_evaluate_decision_logic`: the priority chain.  Every confidence the
sub-checks can return is at least 0.65 > 0, so Python's `if confidence:`
truthiness test coincides with `Option` chaining. -/
def evaluateDecisionLogic (ind : Indicators) (sink_hit : Hit) :
    Option (ℚ × String) :=
  let args := sink_hit.arguments
  let sink_name := sink_hit.sink.name
  let is_conditional := sink_hit.conditional
  (checkPackageManagerDetection ind args sink_name is_conditional).orElse fun _ =>
  (checkExecutionDetection ind args sink_name is_conditional).orElse fun _ =>
  (checkFileExistenceDetection ind args is_conditional).orElse fun _ =>
  checkMountDetection args sink_name is_conditional

/-- `RootDetectionAudit.match`. -/
def tryMatch (ind : Indicators) (sink_hit : Hit) : Option ProtectionCandidate :=
  if sink_hit.sink.risk ≠ "Root Detection" ∧
     sink_hit.sink.risk ≠ "Environment Verification" then none
  else if isUtilityFunction ind sink_hit then none
  else
    match evaluateDecisionLogic ind sink_hit with
    | none => none
    | some (confidence, evidence) =>
      some { pattern_type := "Root Detection (High Confidence)"
             location := { cls := sink_hit.class_name, method := sink_hit.method_name,
                           line := sink_hit.line_number, layer := sink_hit.layer }
             evidence := evidence
             impact_hint := "Detects device root status with high confidence decision logic"
             confidence_signal := sink_hit
             confidence_level := some confidence }

end RootDetectionAudit

/-- `_is_utility_function` shared (textually identical) by
emulator_detection_audit.py and self_protection_audit.py. -/
def auditIsUtilityFunction (ind : Indicators) (sink_hit : Hit) : Bool :=
  let m := pyLower sink_hit.method_name
  pyIn "tohex" m || pyIn "hexto" m || pyIn "encode" m || pyIn "decode" m ||
  seqContains2 "format" "string" m || pyIn "serialize" m ||
  seqContains2 "parse" "json" m || endsUtilsSearch m || getterOnlySearch m ||
  seqContains2 "init" "array" m || seqContains2 "fill" "array" m ||
  ind.utility_methods_to_ignore.any fun u => pyIn (pyLower u) m

namespace EmulatorDetectionAudit

/-- `_check_telephony_detection`. -/
def checkTelephonyDetection (ind : Indicators) (args : List String)
    (sink_name : String) : Option (ℚ × String) :=
  let byName :=
    if pyIn "getNetworkOperatorName" sink_name || pyIn "getNetworkOperator" sink_name then
      args.findSome? fun arg => ind.telephony.findSome? fun indicator =>
        if pyIn (pyLower indicator) (pyLower arg) then
          some ((0.95 : ℚ),
                "Emulator telephony check: NetworkOperator='" ++ indicator ++
                "' is definitive emulator indicator")
        else none
    else none
  byName.orElse fun _ =>
    args.findSome? fun arg => ind.telephony.findSome? fun indicator =>
      if pyLower indicator = pyLower arg then
        some ((0.95 : ℚ),
              "Emulator telephony check: Operator name '" ++ indicator ++ "' detected")
      else none

/-- `_check_hardware_detection`. -/
def checkHardwareDetection (ind : Indicators) (args : List String)
    (sink_name : String) (is_conditional : Bool) : Option (ℚ × String) :=
  if pyIn "HARDWARE" sink_name || pyIn "getProperty" sink_name ||
     pyIn "build" (pyLower sink_name) then
    args.findSome? fun arg => ind.hardware_strings.findSome? fun hw_string =>
      if pyIn (pyLower hw_string) (pyLower arg) then
        some (condBonus 0.8 is_conditional,
              "Emulator hardware check: '" ++ hw_string ++
              "' is known emulator hardware identifier")
      else none
  else none

/-- `_check_build_property_detection`. -/
def checkBuildPropertyDetection (ind : Indicators) (args : List String)
    (is_conditional : Bool) : Option (ℚ × String) :=
  args.findSome? fun arg =>
    ((ind.build_fingerprint.findSome? fun fp =>
        if pyIn (pyLower fp) (pyLower arg) then
          some (condBonus 0.8 is_conditional,
                "Emulator build property: FINGERPRINT contains '" ++ fp ++ "'")
        else none).orElse fun _ =>
     (ind.build_model.findSome? fun model =>
        if pyIn (pyLower model) (pyLower arg) then
          some (condBonus 0.8 is_conditional,
                "Emulator build property: MODEL contains '" ++ model ++ "'")
        else none).orElse fun _ =>
     ind.build_device.findSome? fun device =>
        if pyIn (pyLower device) (pyLower arg) then
          some (condBonus 0.8 is_conditional,
                "Emulator build property: DEVICE contains '" ++ device ++ "'")
        else none)

/-- `_check_kernel_property_detection`. -/
def checkKernelPropertyDetection (ind : Indicators) (args : List String)
    (is_conditional : Bool) : Option (ℚ × String) :=
  args.findSome? fun arg => ind.kernel_properties.findSome? fun prop =>
    if pyIn (pyLower prop) (pyLower arg) then
      some (condBonus 0.65 is_conditional,
            "Emulator kernel property: '" ++ prop ++ "' indicates virtual environment")
    else none

/-- The `\s*[0-3]` tail of the sensor regex: somewhere a `<` is followed by
optional whitespace and a digit `0`–`3`. -/
def ltSmallDigitSearch : List Char → Bool
  | [] => false
  | c :: rest =>
    (c = '<' &&
      (match (rest.dropWhile Char.isWhitespace).head? with
       | some d => '0' ≤ d && d ≤ '3'
       | none => false)) ||
    ltSmallDigitSearch rest

/-- `re.search(r'(sensor.*count|size.*<\s*[0-3]|getSensorList)', arg, IGNORECASE)`. -/
def sensorRegexSearch (arg : String) : Bool :=
  let a := pyLower arg
  seqContains2 "sensor" "count" a ||
  (match firstOccIdx "size".toList a.toList with
   | some i => ltSmallDigitSearch (a.toList.drop (i + 4))
   | none => false) ||
  pyIn "getsensorlist" a

/-- `_check_sensor_detection`. -/
def checkSensorDetection (args : List String) (sink_name : String)
    (is_conditional : Bool) : Option (ℚ × String) :=
  if pyIn "sensor" (pyLower sink_name) || pyIn "SensorManager" sink_name then
    args.findSome? fun arg =>
      if sensorRegexSearch arg then
        some (condBonus 0.65 is_conditional,
              "Emulator sensor check: Limited sensor count detected (typical of emulator)")
      else none
  else none

/-- `_evaluate_hardware_logic`: the priority chain (all sub-check confidences
are ≥ 0.65 > 0, so `if confidence:` truthiness is `Option` chaining). -/
def evaluateHardwareLogic (ind : Indicators) (sink_hit : Hit) :
    Option (ℚ × String) :=
  let args := sink_hit.arguments
  let sink_name := sink_hit.sink.name
  let is_conditional := sink_hit.conditional
  (checkTelephonyDetection ind args sink_name).orElse fun _ =>
  (checkHardwareDetection ind args sink_name is_conditional).orElse fun _ =>
  (checkBuildPropertyDetection ind args is_conditional).orElse fun _ =>
  (checkKernelPropertyDetection ind args is_conditional).orElse fun _ =>
  checkSensorDetection args sink_name is_conditional

/-- `EmulatorDetectionAudit.match`. -/
def tryMatch (ind : Indicators) (sink_hit : Hit) : Option ProtectionCandidate :=
  if sink_hit.sink.risk ≠ "Emulator Detection" ∧
     sink_hit.sink.risk ≠ "Environment Verification" then none
  else if auditIsUtilityFunction ind sink_hit then none
  else
    match evaluateHardwareLogic ind sink_hit with
    | none => none
    | some (confidence, evidence) =>
      some { pattern_type := "Emulator Detection (Hard Evidence)"
             location := { cls := sink_hit.class_name, method := sink_hit.method_name,
                           line := sink_hit.line_number, layer := sink_hit.layer }
             evidence := evidence
             impact_hint := "Detects emulator/virtualized environment using hardware properties"
             confidence_signal := sink_hit
             confidence_level := some confidence }

end EmulatorDetectionAudit

namespace SelfProtectionAudit

/-- The `if/elif` evidence selection of `_check_anti_debugging`. -/
def antiDebugEvidence (api : String) : String :=
  if pyIn "isDebuggerConnected" api then
    "Anti-debugging: Direct debugger connection check via " ++ api
  else if pyIn "FLAG_DEBUGGABLE" api || pyIn "debuggable" (pyLower api) then
    "Anti-debugging: Debuggable flag verification via " ++ api
  else
    "Anti-debugging: Debug mode detection via " ++ api

/-- `_check_anti_debugging`. -/
def checkAntiDebugging (ind : Indicators) (args : List String)
    (sink_name : String) (is_conditional : Bool) : Option (ℚ × String) :=
  (ind.anti_debugging.findSome? fun api =>
    if pyIn (pyLower api) (pyLower sink_name) then
      some (condBonus 0.85 is_conditional, antiDebugEvidence api)
    else none).orElse fun _ =>
  args.findSome? fun arg => ind.anti_debugging.findSome? fun api =>
    if pyIn (pyLower api) (pyLower arg) then
      some (condBonus 0.85 is_conditional,
            "Anti-debugging: " ++ api ++ " detected in decision logic")
    else none

/-- The `if/elif` evidence selection of `_check_anti_instrumentation`. -/
def antiInstrEvidence (framework : String) : String :=
  if pyIn "frida" (pyLower framework) then
    "Anti-instrumentation: Frida/GumJS detection mechanism"
  else if pyIn "xposed" (pyLower framework) then
    "Anti-instrumentation: Xposed framework detection"
  else if pyIn "LD_PRELOAD" framework then
    "Anti-instrumentation: LD_PRELOAD hook detection"
  else
    "Anti-instrumentation: " ++ framework ++ " detection mechanism"

/-- `_check_anti_instrumentation`: per framework, the sink name is probed
first, then every argument; afterwards the stack-trace inspection fallback. -/
def checkAntiInstrumentation (ind : Indicators) (args : List String)
    (sink_name : String) (is_conditional : Bool) : Option (ℚ × String) :=
  (ind.anti_instrumentation.findSome? fun framework =>
    if pyIn (pyLower framework) (pyLower sink_name) then
      some (condBonus 0.85 is_conditional, antiInstrEvidence framework)
    else
      args.findSome? fun arg =>
        if pyIn (pyLower framework) (pyLower arg) then
          some (condBonus 0.85 is_conditional,
                "Anti-instrumentation: String literal '" ++ framework ++
                "' indicates " ++ framework ++ " detection")
        else none).orElse fun _ =>
  if pyIn "StackTrace" sink_name || pyIn "getStackTrace" sink_name then
    args.findSome? fun arg =>
      if pyIn "xposed" (pyLower arg) || pyIn "frida" (pyLower arg) then
        some ((0.75 : ℚ),
              "Anti-instrumentation: StackTrace inspection for framework detection")
      else none
  else none

/-- `_check_signature_verification`. -/
def checkSignatureVerification (args : List String) (sink_name : String)
    (is_conditional : Bool) : Option (ℚ × String) :=
  let byPackageInfo :=
    if pyIn "getPackageInfo" sink_name || pyIn "PackageManager" sink_name then
      args.findSome? fun arg =>
        if pyIn "GET_SIGNATURES" arg || pyIn "SIGNATURES" arg then
          some (condBonus 0.75 is_conditional,
                "Signature verification: Package signature retrieval for integrity check")
        else none
    else none
  byPackageInfo.orElse fun _ =>
  (args.findSome? fun arg =>
    (["MessageDigest", "SHA1", "SHA256", "SHA-1", "SHA-256"].findSome? fun pat =>
      if pyIn pat arg then
        some (condBonus 0.75 is_conditional,
              "Signature verification: Hash algorithm '" ++ pat ++
              "' for certificate validation")
      else none)).orElse fun _ =>
  ["verifySig", "checkSignature", "compareHash", "validateCert"].findSome? fun m =>
    if pyIn (pyLower m) (pyLower sink_name) then
      some (condBonus 0.75 is_conditional,
            "Signature verification: Certificate/signature validation via " ++ m)
    else none

/-- `_evaluate_protection_logic` (all sub-check confidences are ≥ 0.75 > 0,
so `if confidence:` truthiness is `Option` chaining). -/
def evaluateProtectionLogic (ind : Indicators) (sink_hit : Hit) :
    Option (ℚ × String) :=
  let args := sink_hit.arguments
  let sink_name := sink_hit.sink.name
  let is_conditional := sink_hit.conditional
  (checkAntiDebugging ind args sink_name is_conditional).orElse fun _ =>
  (checkAntiInstrumentation ind args sink_name is_conditional).orElse fun _ =>
  checkSignatureVerification args sink_name is_conditional

/-- `SelfProtectionAudit.match`. -/
def tryMatch (ind : Indicators) (sink_hit : Hit) : Option ProtectionCandidate :=
  if sink_hit.sink.risk ≠ "Anti-Debugging" ∧
     sink_hit.sink.risk ≠ "Anti-Debugging Logic" ∧
     sink_hit.sink.risk ≠ "Anti-Analysis" then none
  else if auditIsUtilityFunction ind sink_hit then none
  else
    match evaluateProtectionLogic ind sink_hit with
    | none => none
    | some (confidence, evidence) =>
      some { pattern_type := "Self-Protection & Anti-Analysis (Active Defense)"
             location := { cls := sink_hit.class_name, method := sink_hit.method_name,
                           line := sink_hit.line_number, layer := sink_hit.layer }
             evidence := evidence
             impact_hint := "Active defense mechanism against debugging, instrumentation, or modification"
             confidence_signal := sink_hit
             confidence_level := some confidence }

end SelfProtectionAudit

/-! ## Classification engine (src/core/patterns/engine.py) -/

namespace ProtectionPatternEngine

/-- `f"{hit.class_name}|{hit.method_name}|{hit.line_number}"`. -/
def hitLocationId (hit : Hit) : String :=
  hit.class_name ++ "|" ++ hit.method_name ++ "|" ++ toString hit.line_number

/-- The ordered matcher list applied to one hit: the first pattern to return a
candidate wins (`break`).  `frameworks` is the engine's construction context
`{"frameworks": …}`; none of the embedded matcher bodies can raise, so the
per-pattern `except` is vacuous. -/
def firstMatch (frameworks : List String) (ind : Indicators) (hit : Hit) :
    Option ProtectionCandidate :=
  (SSLPinningPattern.tryMatch frameworks hit).orElse fun _ =>
  (RootDetectionAudit.tryMatch ind hit).orElse fun _ =>
  (EmulatorDetectionAudit.tryMatch ind hit).orElse fun _ =>
  SelfProtectionAudit.tryMatch ind hit

/-- The loop of `ProtectionPatternEngine.analyze` with its
`processed_locations` set threaded explicitly. -/
def analyzeAux (frameworks : List String) (ind : Indicators)
    (processed : List String) : List Hit → List ProtectionCandidate
  | [] => []
  | hit :: rest =>
    let fid := hitLocationId hit
    if processed.contains fid then analyzeAux frameworks ind processed rest
    else
      match firstMatch frameworks ind hit with
      | some result => result :: analyzeAux frameworks ind (fid :: processed) rest
      | none => analyzeAux frameworks ind processed rest

/-- `ProtectionPatternEngine.analyze(sink_hits)` (fresh `processed_locations`
per invocation). -/
def analyze (frameworks : List String) (ind : Indicators) (hits : List Hit) :
    List ProtectionCandidate :=
  analyzeAux frameworks ind [] hits

end ProtectionPatternEngine

/-! ## Native binary layer (src/core/native/) -/

/-- A shared-object file handed to the native stages: its path and raw byte
content. -/
structure SoFile where
  path : String
  data : List Nat
  deriving Repr, DecidableEq

/-- Python `s.rstrip()`. -/
def pyRstrip (s : String) : String :=
  ⟨(s.toList.reverse.dropWhile Char.isWhitespace).reverse⟩

/-- `str.encode()` of the ASCII strings scanned for in binaries. -/
def strToBytes (s : String) : List Nat := s.toList.map Char.toNat

/-- `bytes.decode(errors="ignore")` on the same ASCII data. -/
def bytesToStr (l : List Nat) : String := ⟨l.map Char.ofNat⟩

/-- `bytes.find(needle)` as an `Option` (Python returns `-1` on absence). -/
def bytesFind (needle hay : List Nat) : Option Nat := firstOccIdx needle hay

/-- `hex(n)` (lowercase, no padding). -/
def pyHex (n : Nat) : String := "0x" ++ ⟨Nat.toDigits 16 n⟩

/-- `os.path.basename`. -/
def basename (path : String) : String := splitLast "/" path

namespace NativeEvidenceScanner

/-- `NATIVE_STRING_INDICATORS` (insertion-ordered dict). -/
def NATIVE_STRING_INDICATORS : List (String × String) :=
  [("/proc/self/maps", "Memory-based Anti-Instrumentation"),
   ("SSL_set_custom_verify", "BoringSSL / Flutter SSL Pinning"),
   ("frida", "Frida Instrumentation Detection"),
   ("ptrace", "Anti-Debugging Logic"),
   ("TracerPid", "Debugger Status Check"),
   ("/system/bin/su", "Native Root Verification")]

/-- `_create_hit(sink, so_path, offset, evidence, is_symbol)`. -/
def createHit (sink : SinkDef) (so_path : String) (offset : Nat)
    (evidence : List Nat) (is_symbol : Bool) : Hit :=
  let lib_name := basename so_path
  let evidence_str := bytesToStr evidence
  { sink := sink
    library := some lib_name
    offset := some (pyHex offset)
    evidence := some evidence_str
    is_syscall := false
    is_symbol := is_symbol
    is_string_based := !is_symbol
    arguments := [lib_name, evidence_str]
    context_snippet := ["Binary Offset " ++ pyHex offset ++ ": " ++ evidence_str]
    conditional := true }

/-- What the body of `scan` after its registry query computes: pass 1 matches
every native-layer sink's symbol name as a byte substring; pass 2 matches the
fixed string-indicator table, suppressing offsets already covered.  The
registry query is taken to be the registry's own native-sink accessor
`get_native_symbols` (registry.py lines 127–129, whose docstring names the
native scanner as its consumer). -/
def scanAsDocumented (reg : SinkRegistry) (so : SoFile) : List Hit :=
  let native_sinks := reg.getNativeSymbols
  let hits1 := native_sinks.filterMap fun sink =>
    (bytesFind (strToBytes sink.name) so.data).map fun offset =>
      createHit sink so.path offset (strToBytes sink.name) true
  let hits2 := NATIVE_STRING_INDICATORS.foldl
    (fun acc (p : String × String) =>
      match bytesFind (strToBytes p.1) so.data with
      | some offset =>
        if (hits1 ++ acc).any (fun h => h.offset = some (pyHex offset)) then acc
        else acc ++ [createHit
          { name := bytesToStr (strToBytes p.1), risk := p.2, layer := "Native",
            confidence := some 0.6 }
          so.path offset (strToBytes p.1) false]
      | none => acc)
    []
  hits1 ++ hits2

/-- `NativeEvidenceScanner.scan(so_path)` as it actually executes: after
reading the binary, its first statement is
`self.sink_registry.get_sinks_by_layer("Native")` (symbol_scanner.py line 26),
but `SinkRegistry` (src/core/sinks/registry.py) defines no method of that
name — its native-sink accessor is `get_native_symbols` — so the attribute
lookup raises `AttributeError` before any hit is appended. -/
def scan (_reg : SinkRegistry) (_so : SoFile) : Except String (List Hit) :=
  .error "AttributeError: 'SinkRegistry' object has no attribute 'get_sinks_by_layer'"

end NativeEvidenceScanner

/-- src/core/native/analyzer.py `NativeAnalyzer.analyze_files`: per-file
exceptions are swallowed (`except Exception: continue`). -/
def NativeAnalyzer.analyzeFiles (reg : SinkRegistry) (so_files : List SoFile) :
    List Hit :=
  so_files.foldl
    (fun acc so =>
      match NativeEvidenceScanner.scan reg so with
      | .ok hits => acc ++ hits
      | .error _ => acc)
    []

/-- src/core/native/elf_loader.py `calculate_entropy`: Shannon entropy over
the 8-bit alphabet (`0` for empty input). -/
noncomputable def calculate_entropy (data : List Nat) : ℝ :=
  if data = [] then 0
  else
    ∑ x ∈ Finset.range 256,
      (let p_x : ℝ := (data.count x : ℝ) / (data.length : ℝ)
       if 0 < p_x then -(p_x * Real.logb 2 p_x) else 0)

open scoped Classical in
/-- src/core/native/elf_loader.py `find_and_analyze_bins`: every `.so` file,
plus a synthetic "packed binary" hit for those with entropy above 7.2 (the
`f"High Entropy: {entropy:.2f}"` float rendering inside the evidence text is
not modelled beyond its fixed prefix). -/
noncomputable def findAndAnalyzeBins (apk_extract_dir : List SoFile) :
    List SoFile × List Hit :=
  (apk_extract_dir,
   apk_extract_dir.filterMap fun so =>
     if calculate_entropy so.data > 7.2 then
       some { sink := { name := "packed_native_binary", layer := "Native",
                        risk := "Anti-Analysis" }
              library := some (basename so.path)
              offset := some "0x0"
              evidence := some "High Entropy"
              is_syscall := false, is_symbol := false, is_string_based := false }
     else none)

/-- src/core/native/framework_identifier.py `FRAMEWORK_LIBS`. -/
def FRAMEWORK_LIBS : List (String × List String) :=
  [("Flutter", ["libflutter.so", "libapp.so"]),
   ("ReactNative", ["libreactnativejni.so", "libhermes.so"]),
   ("Unity", ["libunity.so", "libmain.so", "libil2cpp.so"]),
   ("Xamarin", ["libmonosgen-2.0.so", "libmonodroid.so"]),
   ("Cordova", ["libchord.so"])]

/-- `FrameworkIdentifier.identify(lib_names)`: a framework is detected when
one of its characteristic library names is (case-insensitively) among the
found library names (`in` on a list is exact membership). -/
def FrameworkIdentifier.identify (lib_names : List String) : List String :=
  let libs_lower := lib_names.map pyLower
  (FRAMEWORK_LIBS.filter fun fw =>
    fw.2.any fun indicator => libs_lower.contains (pyLower indicator)).map Prod.fst

/-! ## Evidence slicer (src/core/slicing/) -/

/-- The `highlighted_lines` value is duck-typed in the source: the Java slicer
returns a list of indices, the native slicer a single integer. -/
inductive Highlights where
  | idxList : List Nat → Highlights
  | single : Nat → Highlights
  deriving Repr, DecidableEq

/-- `f"{n:04d}"`. -/
def pad4 (n : Nat) : String :=
  let s := toString n
  ⟨List.replicate (4 - s.length) '0'⟩ ++ s

/-- `f"{n:08x}"`. -/
def pad8hex (n : Nat) : String :=
  let s : String := ⟨Nat.toDigits 16 n⟩
  ⟨List.replicate (8 - s.length) '0'⟩ ++ s

namespace JavaCodeSlicer

def executable_opcodes : List String :=
  ["invoke-", "const-string", "if-", "check-cast",
   "new-instance", "sget", "iget", "return", "throw"]

def decision_instructions : List String :=
  ["if-eqz", "if-nez", "if-eq", "if-ne", "if-lt", "if-gt", "if-le", "if-ge",
   "if-eqz/range", "if-nez/range",
   "sparse-switch", "packed-switch",
   "return", "throw"]

/-- The loop of `_find_decision_point` over the remaining indices, with the
`first_invoke_seen` flag threaded (`break` falls through to `return None`). -/
def findDecisionPointGo (source_lines : List String) (sink_idx : Nat) :
    List Nat → Bool → Option Nat
  | [], _ => none
  | i :: rest, first_invoke_seen =>
    let line_content := pyStrip (source_lines.getD i "")
    if line_content = "" || line_content.startsWith "#" then
      findDecisionPointGo source_lines sink_idx rest first_invoke_seen
    else if line_content.startsWith "." then
      findDecisionPointGo source_lines sink_idx rest first_invoke_seen
    else if decision_instructions.any (fun op => pyIn op line_content) then some i
    else if pyIn "invoke-" line_content then
      if !first_invoke_seen then findDecisionPointGo source_lines sink_idx rest true
      else if i > sink_idx + 15 then none
      else findDecisionPointGo source_lines sink_idx rest first_invoke_seen
    else findDecisionPointGo source_lines sink_idx rest first_invoke_seen

/-- `_find_decision_point(source_lines, sink_idx)`: scan up to 30 lines below
the sink for the branch/switch/return/throw instruction consuming it. -/
def findDecisionPoint (source_lines : List String) (sink_idx : Nat) : Option Nat :=
  findDecisionPointGo source_lines sink_idx
    (pyRange (sink_idx + 1) (min (sink_idx + 30) source_lines.length)) false

/-- Python truthiness of `not fallback_idx` (`None` and `0` are both falsy). -/
def fallbackFalsy (fb : Option Nat) : Bool := fb = none || fb = some 0

/-- The sink-search loop of `slice` (STEP 1): first executable
`const-string`/`invoke-` line from the reported index, collecting a fallback
index along the way.  Returns `(found sink index?, fallback index?)`. -/
def sinkSearchGo (source_lines : List String) :
    List Nat → Option Nat → Option Nat × Option Nat
  | [], fb => (none, fb)
  | i :: rest, fb =>
    let line_content := pyStrip (source_lines.getD i "")
    if line_content = "" || line_content.startsWith "#" then
      sinkSearchGo source_lines rest fb
    else if line_content.startsWith "." then
      let fb' :=
        if fallbackFalsy fb ∧
           ¬ (executable_opcodes.any fun op => pyIn op line_content) ∧
           (pyIn "=" line_content || pyIn ":" line_content ||
            line_content.length > 20) then some i
        else fb
      sinkSearchGo source_lines rest fb'
    else if pyIn "const-string" line_content || pyIn "invoke-" line_content then
      (some i, fb)
    else
      sinkSearchGo source_lines rest (if fallbackFalsy fb then some i else fb)

/-- `JavaCodeSlicer.slice(source_lines, line_number, window=8)`. -/
def slice (source_lines : List String) (line_number : Nat) (window : Nat := 8) :
    List String × List Nat :=
  let raw_idx := line_number - 1
  let (found, fallback_idx) :=
    sinkSearchGo source_lines
      (pyRange raw_idx (min (raw_idx + 15) source_lines.length)) none
  let sink_idx :=
    match found with
    | some i => i
    | none => match fallback_idx with
              | some j => j
              | none => raw_idx
  let decision_idx := findDecisionPoint source_lines sink_idx
  let start := sink_idx - window
  let stop :=
    match decision_idx with
    | some d => min source_lines.length (d + window + 1)
    | none => min source_lines.length (sink_idx + window + 1)
  let rendered := (pyRange start stop).map fun i =>
    let content := pyRstrip (source_lines.getD i "")
    let pfx :=
      if i = sink_idx then "[*] "
      else if decision_idx = some i then "[!] "
      else "    "
    "L" ++ pad4 (i + 1) ++ " " ++ pfx ++ " " ++ content
  let highlighted := (pyRange start stop).filterMap fun i =>
    let content_stripped := pyStrip (pyRstrip (source_lines.getD i ""))
    if (i = sink_idx ∨ (decision_idx = some i ∧ i ≠ sink_idx)) ∧
        content_stripped ≠ "" ∧ ¬ content_stripped.startsWith "#" then
      some (i - start)
    else none
  (rendered, highlighted)

end JavaCodeSlicer

/-- src/core/slicing/native_slicer.py `NativeCodeSlicer.slice` (window 5);
the second component is the single highlight index `offset - start`. -/
def NativeCodeSlicer.slice (disassembly_lines : List String) (offset : Nat) :
    List String × Nat :=
  let window := 5
  let start := offset - window
  let stop := min disassembly_lines.length (offset + window + 1)
  ((pyRange start stop).map fun i =>
     "0x" ++ pad8hex i ++ ": " ++ disassembly_lines.getD i "",
   offset - start)

/-- src/core/slicing/semantic.py `SemanticLabeler.label` (its `location`
parameter is never read). -/
def SemanticLabeler.label (pattern_type : String) (evidence : String) : String :=
  let labels :=
    if pattern_type = "Root / Emulator Detection" then
      ["Environment Integrity Check: Searching for privileged binaries (su, magisk)",
       "Infrastructure Validation: Inspecting system build tags and qemu props"]
    else if pattern_type = "SSL Pinning" then
      ["Network Trust Anchor: Enforcing custom X.509 certificate validation",
       "Communication Guard: Hardcoded public key pinning via OkHttp/TrustManager"]
    else if pattern_type = "Anti-Debugging" then
      ["Runtime Shield: Detecting ptrace attachment or JDWP state",
       "Analysis Prevention: Monitoring Debug.isDebuggerConnected() flags"]
    else ["Security-Relevant Logic Extraction"]
  if pyIn "su" (pyLower evidence) ∧ pattern_type = "Root / Emulator Detection" then
    labels.headD ""
  else labels.getLastD ""

/-- src/core/slicing/models.py `EvidenceSlice`. -/
structure EvidenceSlice where
  pattern_type : String
  impact_hint : String
  location : Location
  code_snippet : List String
  highlighted_lines : Highlights
  semantic_label : String
  confidence_score : ℚ
  deriving Repr, DecidableEq

/-- The evidence fingerprint of the slicer's duplicate cache: (class, method,
first 200 characters of the rendered content) — Python hashes the prefix; the
cache semantics is modelled on the prefix itself. -/
def evidenceFingerprint (lp : LocalizedProtection) (snippet : List String) :
    String × String × String :=
  (lp.location.cls, lp.location.method, ⟨(String.join snippet).toList.take 200⟩)

/-- src/core/slicing/slicer.py `EvidenceSlicer.process`, with the
`processed_evidence` cache threaded explicitly (it lives for one analysis
run).  Returns the slice and the updated cache. -/
def EvidenceSlicer.process (cache : List (String × String × String))
    (lp : LocalizedProtection) (source_code : List String) :
    EvidenceSlice × List (String × String × String) :=
  let (snippet, highlights) :=
    if source_code = [] then
      (["// [!] Source code unavailable for context analysis"], Highlights.idxList [])
    else if lp.location.layer = "Java" ∨ lp.location.layer = "Application" then
      let (s, h) := JavaCodeSlicer.slice source_code lp.location.line
      (s, Highlights.idxList h)
    else
      let (s, h) := NativeCodeSlicer.slice source_code (lp.location.native_offset.getD 0)
      (s, Highlights.single h)
  let semantic_label := SemanticLabeler.label lp.pattern_type lp.evidence
  let fp := evidenceFingerprint lp snippet
  let (snippet, highlights, cache') :=
    if cache.contains fp then
      (["// [FILTERED] Duplicate evidence in same method"], Highlights.idxList [], cache)
    else (snippet, highlights, cache ++ [fp])
  ({ pattern_type := lp.pattern_type
     impact_hint := lp.impact_hint
     location := lp.location
     code_snippet := snippet
     highlighted_lines := highlights
     semantic_label := semantic_label
     confidence_score := lp.confidence_score }, cache')

/-! ## Taxonomy / report / grouping (src/core/report/) -/

/-- The 4D taxonomy dictionary. -/
structure Taxonomy where
  purpose : String
  layer : String
  strategy : String
  impact : String
  deriving Repr, DecidableEq

/-- src/core/report/taxonomy.py `TaxonomyMapper._infer_strategy`. -/
def TaxonomyMapper.inferStrategy (e : EvidenceSlice) : String :=
  let sinkName := (e.location.sink_metadata.map SinkDef.name).getD ""
  let code := String.intercalate " " e.code_snippet
  if sinkName = "ptrace" then "Syscall / API-based"
  else if pyIn "/proc/self/maps" code then "Memory-based"
  else if pyIn "/system" code then "File / Path-based"
  else if pyIn "CertificatePinner" code || pyIn "SSLContext" code then "API-based"
  else if pyIn "checksum" code then "Checksum-based"
  else "Control-flow-based"

/-- `TaxonomyMapper.map`. -/
def TaxonomyMapper.map (e : EvidenceSlice) : Taxonomy where
  purpose := e.pattern_type
  layer := e.location.layer
  strategy := TaxonomyMapper.inferStrategy e
  impact := e.impact_hint

/-- src/core/report/models.py `FinalFinding`. -/
structure FinalFinding where
  protection_type : String
  taxonomy : Taxonomy
  location : Location
  semantic_label : String
  confidence_score : ℚ
  evidence_snippet : List String
  deriving Repr, DecidableEq

/-- src/core/report/builder.py `ReportBuilder.build`. -/
def ReportBuilder.build (evidence_slices : List EvidenceSlice) :
    List FinalFinding :=
  evidence_slices.map fun e =>
    { protection_type := e.pattern_type
      taxonomy := TaxonomyMapper.map e
      location := e.location
      semantic_label := e.semantic_label
      confidence_score := e.confidence_score
      evidence_snippet := e.code_snippet }

/-- One value of the grouped-findings dictionary built by the grouper. -/
structure GroupEntry where
  protection_type : String
  semantic_label : String
  taxonomy : Taxonomy
  max_score : ℚ
  locations : List Location
  deriving Repr, DecidableEq

/-- Update the entry of an insertion-ordered association list in place. -/
def modifyAssoc {β : Type} (key : String) (f : β → β) :
    List (String × β) → List (String × β) :=
  List.map fun kv => if kv.1 = key then (kv.1, f kv.2) else kv

/-- src/core/report/grouping.py `FindingGrouper.group`: grouping key
`f"{protection_type}|{semantic_label}|{strategy}"`; each key keeps its
distinct locations and the maximum confidence seen. -/
def FindingGrouper.group (findings : List FinalFinding) :
    List (String × GroupEntry) :=
  findings.foldl
    (fun grouped f =>
      let key := f.protection_type ++ "|" ++ f.semantic_label ++ "|" ++
                 f.taxonomy.strategy
      let grouped :=
        if (grouped.lookup key).isSome then grouped
        else grouped ++ [(key,
          { protection_type := f.protection_type
            semantic_label := f.semantic_label
            taxonomy := f.taxonomy
            max_score := f.confidence_score
            locations := [] })]
      modifyAssoc key
        (fun entry =>
          { entry with
            locations :=
              if entry.locations.contains f.location then entry.locations
              else entry.locations ++ [f.location]
            max_score := max entry.max_score f.confidence_score })
        grouped)
    []

/-! ## Main pipeline (src/cli/main.py `run_analysis`) -/

open scoped Classical in
/-- `run_analysis(decompiled_classes, source_code_map, extracted_apk_dir)`.

The Step-1 `except` branch returns `([], {})`, but `SinkRegistry.__init__`
catches both of its load failures internally (registry.py lines 15–21,
29–34) and always constructs, so that branch cannot be reached through a
catalog-load failure; `catalogLoad`/`indicatorsLoad` are the outcomes of the
two JSON loads (also read again by the audit matchers' own constructors).
None of the embedded stage bodies can raise, so the later stage-level
`except` handlers are vacuous. -/
noncomputable def runAnalysis (re_search : String → String → Bool)
    (catalogLoad : Option Catalog) (indicatorsLoad : Option Indicators)
    (decompiled_classes : List DecompiledClass)
    (source_code_map : List (String × List String))
    (extracted_apk_dir : List SoFile) :
    List FinalFinding × List (String × GroupEntry) :=
  match SinkRegistry.init catalogLoad indicatorsLoad with
  | .error _ => ([], [])
  | .ok sink_registry =>
    -- Step 2: static scanning (Java and native layers).
    let java_hits := StaticAnalyzer.analyze re_search sink_registry decompiled_classes
    let (so_files, packing_hits) := findAndAnalyzeBins extracted_apk_dir
    let detected_fws := FrameworkIdentifier.identify
      (so_files.map fun f => basename f.path)
    let native_hits := NativeAnalyzer.analyzeFiles sink_registry so_files
    -- Step 3: protection pattern recognition.
    let all_hits := java_hits ++ native_hits ++ packing_hits
    let candidates := ProtectionPatternEngine.analyze detected_fws
      (indicatorsLoad.getD Indicators.empty) all_hits
    -- Step 4: localization and scoring.
    let localized := LocalizationEngine.pipelineProcess candidates
    -- Step 5: evidence slicing.
    let slices := (localized.foldl
      (fun (acc : List EvidenceSlice × List (String × String × String)) lp =>
        let source := (source_code_map.lookup lp.location.cls).getD []
        let (sl, cache') := EvidenceSlicer.process acc.2 lp source
        (acc.1 ++ [sl], cache'))
      ([], [])).1
    -- Step 6: taxonomy mapping, report, grouping.
    let findings := ReportBuilder.build slices
    let grouped := FindingGrouper.group findings
    (findings, grouped)

/-! ## Concrete scenario data

The decision-point scenario of spec §8, the sink-catalog entries it needs
(the catalog JSON itself is external data, modelled from the spec and the
repository's unit tests), and the hits/candidates the embedded stages produce
from them. -/

/-- The instruction lines of the spec §8 decision-point scenario. -/
def decisionPointLines : List String :=
  ["const-string v0, \"/system/bin/su\"",
   "invoke-static {v0}, Ljava/io/File;->exists()Z",
   "move-result v0",
   "if-eqz v0, :cond_0"]

/-- Modelled from the spec: the sink-catalog entry for `java.io.File.exists`
(exact-qualified-name match; risk category `Environment Verification` per the
repository's unit test `test_match_fqn_sink`; managed layer). -/
def fileExistsSink : SinkDef :=
  { name := "java.io.File.exists", match_type := some "fqn",
    risk := "Environment Verification", layer := "Java" }

/-- Modelled from the spec: a native-layer catalog sink for the BoringSSL
custom-verify hook (spec §4.3 names instrumentation-framework hooks among the
native indicators and §4.5 a native pinning path with risk
`Secure Communication`). -/
def sslNativeSink : SinkDef :=
  { name := "SSL_set_custom_verify", match_type := some "native",
    risk := "Secure Communication", layer := "Native" }

/-- Modelled from the spec: the native `ptrace` catalog sink (spec §4.3;
risk `Anti-Debugging` per the repository's unit test
`test_native_syscall_match`). -/
def ptraceSink : SinkDef :=
  { name := "ptrace", match_type := some "native",
    risk := "Anti-Debugging", layer := "Native", syscall_id := some 26 }

/-- A registry as constructed from the modelled catalog and indicators. -/
def scenarioRegistry : SinkRegistry :=
  { flattened_sinks := [fileExistsSink, sslNativeSink, ptraceSink],
    indicators := specIndicators }

/-- A registry whose sink-catalog load failed (`catalog = {}`) while the
indicator catalog loaded. -/
def failedLoadRegistry : SinkRegistry :=
  { flattened_sinks := [], indicators := specIndicators }

/-- The decompiled class carrying the §8 scenario method. -/
def rootCheckerClass : DecompiledClass :=
  { name := "com.example.RootChecker",
    methods := [("isDeviceRooted", decisionPointLines)] }

/-- The hit the scanner emits at the scenario's `const-string` line. -/
def scenarioStringHit : Hit :=
  { sink := { name := "/system/bin/su", layer := "Java", risk := "Root Detection",
              confidence := some 0.8 }
    class_name := "com.example.RootChecker"
    method_name := "isDeviceRooted"
    line_number := 1
    arguments := ["/system/bin/su"]
    conditional := true
    is_obfuscated := false
    context_snippet := ["const-string v0, \"/system/bin/su\""]
    layer := "Java" }

/-- The hit the scanner emits at the scenario's `invoke` line (the hit the
spec's decision-point scenario reports). -/
def scenarioInvokeHit : Hit :=
  { sink := fileExistsSink
    class_name := "com.example.RootChecker"
    method_name := "isDeviceRooted"
    line_number := 2
    arguments := ["/system/bin/su"]
    conditional := true
    is_obfuscated := false
    context_snippet := decisionPointLines
    layer := "Java" }

/-- The candidate the root-detection audit produces from the scenario's
invoke-line hit. -/
def scenarioAuditCandidate : ProtectionCandidate :=
  { pattern_type := "Root Detection (High Confidence)"
    location := { cls := "com.example.RootChecker", method := "isDeviceRooted",
                  line := 2, layer := "Java" }
    evidence := "Root file check: /system/bin/su in decision logic"
    impact_hint := "Detects device root status with high confidence decision logic"
    confidence_signal := scenarioInvokeHit
    confidence_level := some 0.7 }

/-! ## Helper lemmas -/

lemma round2_mono {x y : ℚ} (h : x ≤ y) : round2 x ≤ round2 y := by
  unfold round2
  have hr : round (x * 100) ≤ round (y * 100) := by
    rw [round_eq, round_eq]
    exact Int.floor_le_floor (by linarith)
  rw [div_le_div_iff_of_pos_right (by norm_num : (0:ℚ) < 100)]
  exact_mod_cast hr

lemma round2_of_exact_hundredth (z : ℤ) : round2 ((z : ℚ) / 100) = (z : ℚ) / 100 := by
  unfold round2
  rw [div_mul_cancel₀ _ (by norm_num : (100:ℚ) ≠ 0)]
  rw [round_intCast]

/-- The weighted branch of `ConfidenceScorer.score` stays in `[0.4, 1]`. -/
lemma score_bounds_of_none (h : Hit) (hcl : h.confidence_level = none) :
    0.4 ≤ ConfidenceScorer.score h ∧ ConfidenceScorer.score h ≤ 1 := by
  unfold ConfidenceScorer.score
  rw [hcl]
  by_cases h1 : ConfidenceScorer.getValHasStringMatch h <;>
    by_cases h2 : h.conditional <;>
      by_cases h3 : h.layer = "Native" <;>
        simp only [h1, h2, h3, if_true, if_false, Bool.false_eq_true, if_pos, if_neg,
          not_false_iff] <;>
          exact ⟨by with_unfolding_all decide, by with_unfolding_all decide⟩

/-- Bound transport along `List.findSome?` (the embedded `for`-loop idiom). -/
lemma findSome?_prop {α β : Type} {l : List α} {f : α → Option β} {b : β}
    (P : β → Prop) (hf : ∀ a b', f a = some b' → P b')
    (h : l.findSome? f = some b) : P b := by
  obtain ⟨a, _, ha⟩ := List.exists_of_findSome?_eq_some h
  exact hf a b ha

/-- Bound transport along `Option.orElse` chains. -/
lemma orElse_prop {β : Type} {o : Option β} {g : Unit → Option β} {b : β}
    (P : β → Prop) (h1 : ∀ b', o = some b' → P b') (h2 : ∀ b', g () = some b' → P b')
    (h : o.orElse g = some b) : P b := by
  cases o with
  | none => exact h2 b h
  | some x =>
    simp only [Option.orElse] at h
    exact h1 b h

lemma condBonus_mem (c : ℚ) (b : Bool) (hc0 : 0 ≤ c) (hc1 : c ≤ 1) :
    0 ≤ condBonus c b ∧ condBonus c b ≤ 1 := by
  unfold condBonus
  split_ifs
  · refine ⟨le_min (by linarith) (by norm_num), ?_⟩
    calc min (c + 0.05) 1.0 ≤ 1.0 := min_le_right _ _
    _ ≤ 1 := by norm_num
  · exact ⟨hc0, hc1⟩

lemma ite_some_prop {β : Type} {c : Prop} [Decidable c] {x : β} {p : β}
    (P : β → Prop) (hx : P x) (h : (if c then some x else none) = some p) : P p := by
  split at h
  · cases h; exact hx
  · cases h

/-- The confidence carried by any pair a check-loop can return is in `[0,1]`:
shared shape over `((ℚ × String))`. -/
abbrev confBounded (p : ℚ × String) : Prop := 0 ≤ p.1 ∧ p.1 ≤ 1

lemma rootPkg_bound (ind : Indicators) (args : List String) (name : String)
    (cond : Bool) (p : ℚ × String)
    (h : RootDetectionAudit.checkPackageManagerDetection ind args name cond = some p) :
    confBounded p := by
  unfold RootDetectionAudit.checkPackageManagerDetection at h
  exact findSome?_prop _ (fun arg q h1 => findSome?_prop _ (fun pkg q' h2 =>
    ite_some_prop _ (condBonus_mem 0.9 cond (by norm_num) (by norm_num)) h2) h1) h

lemma rootExec_bound (ind : Indicators) (args : List String) (name : String)
    (cond : Bool) (p : ℚ × String)
    (h : RootDetectionAudit.checkExecutionDetection ind args name cond = some p) :
    confBounded p := by
  unfold RootDetectionAudit.checkExecutionDetection at h
  split at h
  · exact findSome?_prop _ (fun arg q h1 => findSome?_prop _ (fun cmd q' h2 =>
      ite_some_prop _ (condBonus_mem 0.9 cond (by norm_num) (by norm_num)) h2) h1) h
  · cases h

lemma rootFile_bound (ind : Indicators) (args : List String) (cond : Bool)
    (p : ℚ × String)
    (h : RootDetectionAudit.checkFileExistenceDetection ind args cond = some p) :
    confBounded p := by
  unfold RootDetectionAudit.checkFileExistenceDetection at h
  split at h
  · cases h
  · exact findSome?_prop _ (fun arg q h1 => findSome?_prop _ (fun fp q' h2 =>
      ite_some_prop _ (by constructor <;> norm_num) h2) h1) h

lemma rootMount_bound (args : List String) (name : String) (cond : Bool)
    (p : ℚ × String)
    (h : RootDetectionAudit.checkMountDetection args name cond = some p) :
    confBounded p := by
  unfold RootDetectionAudit.checkMountDetection at h
  exact findSome?_prop _ (fun arg q h1 =>
    ite_some_prop _ (condBonus_mem 0.7 cond (by norm_num) (by norm_num)) h1) h

lemma rootEval_bound (ind : Indicators) (hit : Hit) (p : ℚ × String)
    (h : RootDetectionAudit.evaluateDecisionLogic ind hit = some p) :
    confBounded p := by
  unfold RootDetectionAudit.evaluateDecisionLogic at h
  refine orElse_prop _ (fun b hb => rootPkg_bound _ _ _ _ _ hb) ?_ h
  intro b hb
  refine orElse_prop _ (fun c hc => rootExec_bound _ _ _ _ _ hc) ?_ hb
  intro c hc
  exact orElse_prop _ (fun d hd => rootFile_bound _ _ _ _ hd)
    (fun d hd => rootMount_bound _ _ _ _ hd) hc

lemma emuTelephony_bound (ind : Indicators) (args : List String) (name : String)
    (p : ℚ × String)
    (h : EmulatorDetectionAudit.checkTelephonyDetection ind args name = some p) :
    confBounded p := by
  unfold EmulatorDetectionAudit.checkTelephonyDetection at h
  refine orElse_prop _ ?_ ?_ h
  · intro b hb
    split at hb
    · exact findSome?_prop _ (fun arg q h1 => findSome?_prop _ (fun i q' h2 =>
        ite_some_prop _ (by constructor <;> norm_num) h2) h1) hb
    · cases hb
  · intro b hb
    exact findSome?_prop _ (fun arg q h1 => findSome?_prop _ (fun i q' h2 =>
      ite_some_prop _ (by constructor <;> norm_num) h2) h1) hb

lemma emuHardware_bound (ind : Indicators) (args : List String) (name : String)
    (cond : Bool) (p : ℚ × String)
    (h : EmulatorDetectionAudit.checkHardwareDetection ind args name cond = some p) :
    confBounded p := by
  unfold EmulatorDetectionAudit.checkHardwareDetection at h
  split at h
  · exact findSome?_prop _ (fun arg q h1 => findSome?_prop _ (fun hw q' h2 =>
      ite_some_prop _ (condBonus_mem 0.8 cond (by norm_num) (by norm_num)) h2) h1) h
  · cases h

set_option maxHeartbeats 2000000 in
lemma emuBuild_bound (ind : Indicators) (args : List String) (cond : Bool)
    (p : ℚ × String)
    (h : EmulatorDetectionAudit.checkBuildPropertyDetection ind args cond = some p) :
    confBounded p := by
  unfold EmulatorDetectionAudit.checkBuildPropertyDetection at h
  refine findSome?_prop _ (fun arg q h1 => ?_) h
  refine orElse_prop _ ?_ ?_ h1
  · intro c hc
    exact findSome?_prop _ (fun fp q' h2 =>
      ite_some_prop _ (condBonus_mem 0.8 cond (by norm_num) (by norm_num)) h2) hc
  · intro c hc
    refine orElse_prop _ ?_ ?_ hc
    · intro d hd
      exact findSome?_prop _ (fun m q' h2 =>
        ite_some_prop _ (condBonus_mem 0.8 cond (by norm_num) (by norm_num)) h2) hd
    · intro d hd
      exact findSome?_prop _ (fun dv q' h2 =>
        ite_some_prop _ (condBonus_mem 0.8 cond (by norm_num) (by norm_num)) h2) hd

lemma emuKernel_bound (ind : Indicators) (args : List String) (cond : Bool)
    (p : ℚ × String)
    (h : EmulatorDetectionAudit.checkKernelPropertyDetection ind args cond = some p) :
    confBounded p := by
  unfold EmulatorDetectionAudit.checkKernelPropertyDetection at h
  exact findSome?_prop _ (fun arg q h1 => findSome?_prop _ (fun pr q' h2 =>
    ite_some_prop _ (condBonus_mem 0.65 cond (by norm_num) (by norm_num)) h2) h1) h

lemma emuSensor_bound (args : List String) (name : String) (cond : Bool)
    (p : ℚ × String)
    (h : EmulatorDetectionAudit.checkSensorDetection args name cond = some p) :
    confBounded p := by
  unfold EmulatorDetectionAudit.checkSensorDetection at h
  split at h
  · exact findSome?_prop _ (fun arg q h1 =>
      ite_some_prop _ (condBonus_mem 0.65 cond (by norm_num) (by norm_num)) h1) h
  · cases h

lemma emulatorEval_bound (ind : Indicators) (hit : Hit) (p : ℚ × String)
    (h : EmulatorDetectionAudit.evaluateHardwareLogic ind hit = some p) :
    confBounded p := by
  unfold EmulatorDetectionAudit.evaluateHardwareLogic at h
  refine orElse_prop _ (fun b hb => emuTelephony_bound _ _ _ _ hb) ?_ h
  intro b hb
  refine orElse_prop _ (fun c hc => emuHardware_bound _ _ _ _ _ hc) ?_ hb
  intro c hc
  refine orElse_prop _ (fun d hd => emuBuild_bound _ _ _ _ hd) ?_ hc
  intro d hd
  exact orElse_prop _ (fun e he => emuKernel_bound _ _ _ _ he)
    (fun e he => emuSensor_bound _ _ _ _ he) hd

lemma spAntiDebug_bound (ind : Indicators) (args : List String) (name : String)
    (cond : Bool) (p : ℚ × String)
    (h : SelfProtectionAudit.checkAntiDebugging ind args name cond = some p) :
    confBounded p := by
  unfold SelfProtectionAudit.checkAntiDebugging at h
  refine orElse_prop _ ?_ ?_ h
  · intro b hb
    exact findSome?_prop _ (fun api q h1 =>
      ite_some_prop _ (condBonus_mem 0.85 cond (by norm_num) (by norm_num)) h1) hb
  · intro b hb
    exact findSome?_prop _ (fun arg q h1 => findSome?_prop _ (fun api q' h2 =>
      ite_some_prop _ (condBonus_mem 0.85 cond (by norm_num) (by norm_num)) h2) h1) hb

lemma spAntiInstr_bound (ind : Indicators) (args : List String) (name : String)
    (cond : Bool) (p : ℚ × String)
    (h : SelfProtectionAudit.checkAntiInstrumentation ind args name cond = some p) :
    confBounded p := by
  unfold SelfProtectionAudit.checkAntiInstrumentation at h
  refine orElse_prop _ ?_ ?_ h
  · intro b hb
    refine findSome?_prop _ (fun fw q h1 => ?_) hb
    split at h1
    · cases h1; exact condBonus_mem 0.85 cond (by norm_num) (by norm_num)
    · exact findSome?_prop _ (fun arg q' h2 =>
        ite_some_prop _ (condBonus_mem 0.85 cond (by norm_num) (by norm_num)) h2) h1
  · intro b hb
    split at hb
    · exact findSome?_prop _ (fun arg q h1 =>
        ite_some_prop _ (by constructor <;> norm_num) h1) hb
    · cases hb

set_option maxHeartbeats 2000000 in
lemma spSignature_bound (args : List String) (name : String) (cond : Bool)
    (p : ℚ × String)
    (h : SelfProtectionAudit.checkSignatureVerification args name cond = some p) :
    confBounded p := by
  unfold SelfProtectionAudit.checkSignatureVerification at h
  refine orElse_prop _ ?_ ?_ h
  · intro c hc
    split at hc
    · exact findSome?_prop _ (fun arg q h1 =>
        ite_some_prop _ (condBonus_mem 0.75 cond (by norm_num) (by norm_num)) h1) hc
    · cases hc
  · intro c hc
    refine orElse_prop _ ?_ ?_ hc
    · intro d hd
      exact findSome?_prop _ (fun arg q h1 => findSome?_prop _ (fun pat q' h2 =>
        ite_some_prop _ (condBonus_mem 0.75 cond (by norm_num) (by norm_num)) h2) h1) hd
    · intro d hd
      exact findSome?_prop _ (fun m q h1 =>
        ite_some_prop _ (condBonus_mem 0.75 cond (by norm_num) (by norm_num)) h1) hd

lemma selfProtEval_bound (ind : Indicators) (hit : Hit) (p : ℚ × String)
    (h : SelfProtectionAudit.evaluateProtectionLogic ind hit = some p) :
    confBounded p := by
  unfold SelfProtectionAudit.evaluateProtectionLogic at h
  refine orElse_prop _ (fun b hb => spAntiDebug_bound _ _ _ _ _ hb) ?_ h
  intro b hb
  exact orElse_prop _ (fun c hc => spAntiInstr_bound _ _ _ _ _ hc)
    (fun c hc => spSignature_bound _ _ _ _ hc) hb

lemma round2_zero : round2 0 = 0 := by with_unfolding_all decide

lemma round2_one : round2 1 = 1 := by with_unfolding_all decide

lemma round2_unit {q : ℚ} (h0 : 0 ≤ q) (h1 : q ≤ 1) :
    0 ≤ round2 q ∧ round2 q ≤ 1 := by
  constructor
  · have := round2_mono h0; rwa [round2_zero] at this
  · have := round2_mono h1; rwa [round2_one] at this

/-- Any candidate the root-detection audit emits carries the confidence of
its decision-logic evaluation. -/
lemma rootMatch_confidence (ind : Indicators) (hit : Hit)
    (cand : ProtectionCandidate)
    (h : RootDetectionAudit.tryMatch ind hit = some cand) :
    ∃ p, RootDetectionAudit.evaluateDecisionLogic ind hit = some p ∧
      cand.confidence_level = some p.1 := by
  unfold RootDetectionAudit.tryMatch at h
  split at h
  · cases h
  split at h
  · cases h
  split at h
  · cases h
  next p heq =>
    cases h
    exact ⟨_, heq, rfl⟩

lemma emulatorMatch_confidence (ind : Indicators) (hit : Hit)
    (cand : ProtectionCandidate)
    (h : EmulatorDetectionAudit.tryMatch ind hit = some cand) :
    ∃ p, EmulatorDetectionAudit.evaluateHardwareLogic ind hit = some p ∧
      cand.confidence_level = some p.1 := by
  unfold EmulatorDetectionAudit.tryMatch at h
  split at h
  · cases h
  split at h
  · cases h
  split at h
  · cases h
  next p heq =>
    cases h
    exact ⟨_, heq, rfl⟩

lemma selfProtMatch_confidence (ind : Indicators) (hit : Hit)
    (cand : ProtectionCandidate)
    (h : SelfProtectionAudit.tryMatch ind hit = some cand) :
    ∃ p, SelfProtectionAudit.evaluateProtectionLogic ind hit = some p ∧
      cand.confidence_level = some p.1 := by
  unfold SelfProtectionAudit.tryMatch at h
  split at h
  · cases h
  split at h
  · cases h
  split at h
  · cases h
  next p heq =>
    cases h
    exact ⟨_, heq, rfl⟩

/-- Every hit the bytecode scanner emits leaves the probed `confidence_level`
attribute absent. -/
lemma scanMethod_confidence_level_none (re_search : String → String → Bool)
    (reg : SinkRegistry) (class_name method_name : String)
    (code_lines : List String) :
    ∀ h ∈ JavaSinkScanner.scanMethod re_search reg class_name method_name code_lines,
      h.confidence_level = none := by
  intro h hmem
  unfold JavaSinkScanner.scanMethod at hmem
  obtain ⟨idx, -, heq⟩ := List.mem_filterMap.mp hmem
  dsimp only at heq
  split at heq
  · split at heq
    · cases heq; rfl
    · cases heq
  · split at heq
    · split at heq
      · cases heq; rfl
      · cases heq
    · cases heq

/-- Every localized protection's score is the scorer's result on the
candidate's confidence signal. -/
lemma pipelineProcess_score (candidates : List ProtectionCandidate) :
    ∀ lp ∈ LocalizationEngine.pipelineProcess candidates,
      ∃ c ∈ candidates, lp.confidence_score = ConfidenceScorer.score c.confidence_signal := by
  intro lp hmem
  unfold LocalizationEngine.pipelineProcess at hmem
  obtain ⟨c, hc, heq⟩ := List.mem_map.mp hmem
  refine ⟨c, hc, ?_⟩
  rw [← heq]
  rfl

/-- The localized protection the pipeline produces from the §8 scenario's
audit candidate. -/
def scenarioLocalizedProtection : LocalizedProtection :=
  { pattern_type := "Root Detection (High Confidence)"
    impact_hint := "Detects device root status with high confidence decision logic"
    location := { cls := "com.example.RootChecker", method := "isDeviceRooted",
                  line := 2, layer := "Java",
                  file_path := some "com/example/RootChecker.java",
                  full_signature := some "com.example.RootChecker -> isDeviceRooted" }
    evidence := "Root file check: /system/bin/su in decision logic"
    confidence_score := 0.6
    confidence_breakdown := { api_match := true, string_indicator := false,
                              control_flow := true, native_layer := false,
                              explicit_audit_confidence := none } }

/-- C1: Every finding scored by the live localization pipeline (whose signal
objects, being `SinkHit`/`NativeSinkHit` instances, carry no
`confidence_level` attribute) has its confidence score in `[0, 1]`; and every
explicit confidence an audit matcher supplies stays in `[0, 1]` after the
scorer's two-decimal rounding, so the audit-supplied path is bounded as
well. -/
theorem confidence_score_in_unit_interval :
    (∀ candidates,
       (∀ c ∈ candidates, c.confidence_signal.confidence_level = none) →
       ∀ lp ∈ LocalizationEngine.pipelineProcess candidates,
         0 ≤ lp.confidence_score ∧ lp.confidence_score ≤ 1) ∧
    (∀ ind hit cand, RootDetectionAudit.tryMatch ind hit = some cand →
       ∀ q, cand.confidence_level = some q → 0 ≤ round2 q ∧ round2 q ≤ 1) ∧
    (∀ ind hit cand, EmulatorDetectionAudit.tryMatch ind hit = some cand →
       ∀ q, cand.confidence_level = some q → 0 ≤ round2 q ∧ round2 q ≤ 1) ∧
    (∀ ind hit cand, SelfProtectionAudit.tryMatch ind hit = some cand →
       ∀ q, cand.confidence_level = some q → 0 ≤ round2 q ∧ round2 q ≤ 1) := by
  refine ⟨?_, ?_, ?_, ?_⟩
  · intro candidates hnone lp hmem
    obtain ⟨c, hc, hscore⟩ := pipelineProcess_score candidates lp hmem
    have hb := score_bounds_of_none c.confidence_signal (hnone c hc)
    exact ⟨hscore ▸ le_trans (by norm_num) hb.1, hscore ▸ hb.2⟩
  · intro ind hit cand h q hq
    obtain ⟨p, hp, hl⟩ := rootMatch_confidence ind hit cand h
    have hb := rootEval_bound ind hit p hp
    have : q = p.1 := by rw [hq] at hl; exact Option.some.inj hl
    exact this ▸ round2_unit hb.1 hb.2
  · intro ind hit cand h q hq
    obtain ⟨p, hp, hl⟩ := emulatorMatch_confidence ind hit cand h
    have hb := emulatorEval_bound ind hit p hp
    have : q = p.1 := by rw [hq] at hl; exact Option.some.inj hl
    exact this ▸ round2_unit hb.1 hb.2
  · intro ind hit cand h q hq
    obtain ⟨p, hp, hl⟩ := selfProtMatch_confidence ind hit cand h
    have hb := selfProtEval_bound ind hit p hp
    have : q = p.1 := by rw [hq] at hl; exact Option.some.inj hl
    exact this ▸ round2_unit hb.1 hb.2

/-- Witness for C1: the §8 scenario's audit candidate, localized, scores
`0.6 ∈ [0,1]`, and its audit-supplied explicit confidence `0.7` stays in
`[0,1]` after rounding. -/
theorem confidence_score_in_unit_interval_witness :
    (0 ≤ scenarioLocalizedProtection.confidence_score ∧
       scenarioLocalizedProtection.confidence_score ≤ 1) ∧
    (0 ≤ round2 0.7 ∧ round2 0.7 ≤ 1) := by
  constructor
  · exact confidence_score_in_unit_interval.1 [scenarioAuditCandidate]
      (by intro c hc; rw [List.mem_singleton.mp hc]; rfl)
      scenarioLocalizedProtection (by with_unfolding_all decide)
  · exact confidence_score_in_unit_interval.2.1 specIndicators scenarioInvokeHit
      scenarioAuditCandidate (by with_unfolding_all decide) 0.7 rfl

/-- C2 (code bug): the audit matcher supplies explicit confidence 0.7 on the
§8 scenario candidate, yet localization records the weighted-formula score
0.6 — scorer.py probes `confidence_level` on the signal object
(`candidate.confidence_signal`, a `SinkHit`), never on the candidate that
carries it, contradicting its own docstring ("If a confidence_level is
provided by audit patterns, use it as base score"). -/
theorem explicit_audit_confidence_dropped_by_localization :
    RootDetectionAudit.tryMatch specIndicators scenarioInvokeHit =
      some scenarioAuditCandidate ∧
    scenarioAuditCandidate.confidence_level = some 0.7 ∧
    LocalizationEngine.pipelineProcess [scenarioAuditCandidate] =
      [scenarioLocalizedProtection] ∧
    scenarioLocalizedProtection.confidence_score = 0.6 ∧
    (0.6 : ℚ) ≠ 0.7 := by
  with_unfolding_all decide

/-- C3 counterexample: on the spec §8 decision-point scenario (file-existence
check of `/system/bin/su` inside decision logic, hit at the invoke line), the
root-detection audit assigns confidence 0.7, not the claimed 0.75. -/
theorem root_file_check_confidence_counterexample :
    JavaSinkScanner.scanMethod (fun _ _ => false) scenarioRegistry
        "com.example.RootChecker" "isDeviceRooted" decisionPointLines =
      [scenarioStringHit, scenarioInvokeHit] ∧
    (RootDetectionAudit.tryMatch specIndicators scenarioInvokeHit).map
        (fun c => c.confidence_level) = some (some 0.7) ∧
    (0.7 : ℚ) ≠ 0.75 := by
  with_unfolding_all decide

/-- The file-existence check only ever yields the bare `MEDIUM` level 0.7. -/
lemma rootFile_value (ind : Indicators) (args : List String) (cond : Bool)
    (p : ℚ × String)
    (h : RootDetectionAudit.checkFileExistenceDetection ind args cond = some p) :
    p.1 = 0.7 := by
  unfold RootDetectionAudit.checkFileExistenceDetection at h
  split at h
  · cases h
  · exact findSome?_prop (fun pr => pr.1 = 0.7)
      (fun arg q h1 => findSome?_prop (fun pr => pr.1 = 0.7)
        (fun fp q' h2 => ite_some_prop (fun pr => pr.1 = 0.7) rfl h2) h1) h

/-- C3 amended: for a hit whose risk category the root audit accepts, that is
not filtered as a utility function, on which the package-manager and
execution checks fail, that is inside decision logic and whose arguments
contain a known root-binary path, the audit assigns exactly 0.7 — being
inside decision logic is a prerequisite of the file-existence branch, not a
+0.05 bonus. -/
theorem root_file_check_confidence_amended :
    ∀ (ind : Indicators) (hit : Hit),
      (hit.sink.risk = "Root Detection" ∨ hit.sink.risk = "Environment Verification") →
      RootDetectionAudit.isUtilityFunction ind hit = false →
      RootDetectionAudit.checkPackageManagerDetection ind hit.arguments
        hit.sink.name hit.conditional = none →
      RootDetectionAudit.checkExecutionDetection ind hit.arguments
        hit.sink.name hit.conditional = none →
      (RootDetectionAudit.checkFileExistenceDetection ind hit.arguments
        hit.conditional).isSome →
      (RootDetectionAudit.tryMatch ind hit).map (fun c => c.confidence_level) =
        some (some 0.7) := by
  intro ind hit hrisk hutil hpkg hexec hfile
  obtain ⟨p, hp⟩ := Option.isSome_iff_exists.mp hfile
  have heval : RootDetectionAudit.evaluateDecisionLogic ind hit = some p := by
    unfold RootDetectionAudit.evaluateDecisionLogic
    simp only [hpkg, hexec, hp, Option.orElse]
  unfold RootDetectionAudit.tryMatch
  rw [if_neg, if_neg, heval]
  · simp only [Option.map_some]
    rw [rootFile_value ind hit.arguments hit.conditional p hp]
    rfl
  · rw [hutil]; exact Bool.false_ne_true
  · rcases hrisk with h | h <;> rw [h] <;> simp

/-- Witness for C3's amended theorem: the §8 scenario's invoke-line hit. -/
theorem root_file_check_confidence_amended_witness :
    (scenarioInvokeHit.sink.risk = "Root Detection" ∨
       scenarioInvokeHit.sink.risk = "Environment Verification") ∧
    (RootDetectionAudit.tryMatch specIndicators scenarioInvokeHit).map
        (fun c => c.confidence_level) = some (some 0.7) :=
  ⟨Or.inr rfl,
   root_file_check_confidence_amended specIndicators scenarioInvokeHit
     (Or.inr rfl) (by with_unfolding_all decide) (by with_unfolding_all decide)
     (by with_unfolding_all decide) (by with_unfolding_all decide)⟩

/-- C10: every hit the scanners construct leaves the `confidence_level`
attribute absent, so the scorer's explicit-confidence branch cannot fire on a
pipeline signal, and every localized protection scored from such signals gets
at least the unconditional 0.4 API base weight. -/
theorem localized_confidence_at_least_base_weight :
    (∀ re_search reg class_name method_name code_lines,
       ∀ h ∈ JavaSinkScanner.scanMethod re_search reg class_name method_name code_lines,
         h.confidence_level = none) ∧
    (∀ sink path offset evidence is_symbol,
       (NativeEvidenceScanner.createHit sink path offset evidence is_symbol).confidence_level
         = none) ∧
    (∀ candidates,
       (∀ c ∈ candidates, c.confidence_signal.confidence_level = none) →
       ∀ lp ∈ LocalizationEngine.pipelineProcess candidates,
         0.4 ≤ lp.confidence_score) := by
  refine ⟨scanMethod_confidence_level_none, fun _ _ _ _ _ => rfl, ?_⟩
  intro candidates hnone lp hmem
  obtain ⟨c, hc, hscore⟩ := pipelineProcess_score candidates lp hmem
  exact hscore ▸ (score_bounds_of_none c.confidence_signal (hnone c hc)).1

/-- Witness for C10: the §8 scenario candidate localizes to score 0.6 ≥ 0.4. -/
theorem localized_confidence_at_least_base_weight_witness :
    0.4 ≤ scenarioLocalizedProtection.confidence_score :=
  localized_confidence_at_least_base_weight.2.2 [scenarioAuditCandidate]
    (by intro c hc; rw [List.mem_singleton.mp hc]; rfl)
    scenarioLocalizedProtection (by with_unfolding_all decide)

/-- C8: for an `exact-qualified-name` (`fqn`) sink, `match_sink` matches a
call signature exactly when either string contains the other; in particular
the exact string `java.io.File.exists` matches its own sink. -/
theorem match_sink_fqn_mutual_containment :
    (∀ (re_search : String → String → Bool) (ind : Indicators) (s : SinkDef)
       (api : String),
       s.match_type.getD "fqn" = "fqn" →
       (SinkRegistry.matchSink re_search
           { flattened_sinks := [s], indicators := ind } api = some s ↔
         (pyIn s.name api = true ∨ pyIn api s.name = true))) ∧
    SinkRegistry.matchSink (fun _ _ => false) scenarioRegistry
      "java.io.File.exists" = some fileExistsSink := by
  constructor
  · intro re_search ind s api hmt
    unfold SinkRegistry.matchSink
    simp only [List.findSome?]
    rw [hmt]
    simp only [if_pos rfl]
    by_cases h1 : pyIn s.name api <;> by_cases h2 : pyIn api s.name <;>
      simp [h1, h2]
  · with_unfolding_all decide

/-- Witness for C8: the `java.io.File.exists` sink against a signature that
strictly contains its name. -/
theorem match_sink_fqn_mutual_containment_witness :
    fileExistsSink.match_type.getD "fqn" = "fqn" ∧
    (SinkRegistry.matchSink (fun _ _ => false)
        { flattened_sinks := [fileExistsSink], indicators := specIndicators }
        "xjava.io.File.existsy" = some fileExistsSink ↔
      (pyIn fileExistsSink.name "xjava.io.File.existsy" = true ∨
       pyIn "xjava.io.File.existsy" fileExistsSink.name = true)) :=
  ⟨rfl, match_sink_fqn_mutual_containment.1 (fun _ _ => false) specIndicators
    fileExistsSink "xjava.io.File.existsy" rfl⟩

/-- C9: the Shannon-entropy computation returns exactly 0 on an all-zero
buffer of any length, and a value within 0.01 of 8 (in fact exactly 8) on any
buffer in which all 256 byte values occur equally often. -/
theorem entropy_zero_buffer_and_uniform_buffer :
    (∀ n, calculate_entropy (List.replicate n 0) = 0) ∧
    (∀ (data : List ℕ) (k : ℕ), 0 < k →
       (∀ x < 256, data.count x = k) → data.length = 256 * k →
       |calculate_entropy data - 8| ≤ 1 / 100) := by
  constructor
  · intro n
    cases n with
    | zero => simp [calculate_entropy]
    | succ m =>
      unfold calculate_entropy
      rw [if_neg (by simp)]
      refine Finset.sum_eq_zero ?_
      intro x _
      rcases eq_or_ne x 0 with rfl | hx0
      · have hcount : (List.replicate (m + 1) 0).count 0 = m + 1 := by simp
        have hlen : (List.replicate (m + 1) (0 : ℕ)).length = m + 1 := by simp
        dsimp only
        rw [hcount, hlen]
        have hp : ((m + 1 : ℕ) : ℝ) / ((m + 1 : ℕ) : ℝ) = 1 :=
          div_self (by positivity)
        rw [hp, if_pos (by norm_num)]
        simp [Real.logb_one]
      · have hcount : (List.replicate (m + 1) 0).count x = 0 := by
          simp [List.count_replicate, hx0.symm]
        dsimp only
        rw [hcount]
        norm_num
  · intro data k hk hcount hlen
    have hne : data ≠ [] := by
      intro hd
      rw [hd] at hlen
      simp at hlen
      omega
    have hsum : calculate_entropy data = 8 := by
      unfold calculate_entropy
      rw [if_neg hne]
      have hterm : ∀ x ∈ Finset.range 256,
          (let p_x : ℝ := ((data.count x : ℕ) : ℝ) / (data.length : ℝ)
           if 0 < p_x then -(p_x * Real.logb 2 p_x) else 0) = 1 / 32 := by
        intro x hx
        have hc := hcount x (Finset.mem_range.mp hx)
        dsimp only
        rw [hc, hlen]
        have hp : ((k : ℕ) : ℝ) / ((256 * k : ℕ) : ℝ) = 1 / 256 := by
          push_cast
          rw [div_eq_div_iff (by positivity) (by norm_num)]
          ring
        rw [hp, if_pos (by norm_num)]
        have hlog : Real.logb 2 (1 / 256 : ℝ) = -8 := by
          have h256 : (256 : ℝ) = (2 : ℝ) ^ (8 : ℕ) := by norm_num
          rw [one_div, Real.logb_inv, h256, Real.logb_pow,
            Real.logb_self_eq_one (by norm_num)]
          norm_num
        rw [hlog]
        norm_num
      rw [Finset.sum_congr rfl hterm, Finset.sum_const, Finset.card_range]
      norm_num
    rw [hsum]
    norm_num

/-- Witness for C9: a five-byte all-zero buffer, and the buffer `0,…,255` in
which every byte value occurs exactly once. -/
theorem entropy_zero_buffer_and_uniform_buffer_witness :
    calculate_entropy (List.replicate 5 0) = 0 ∧
    |calculate_entropy (List.range 256) - 8| ≤ 1 / 100 :=
  ⟨entropy_zero_buffer_and_uniform_buffer.1 5,
   entropy_zero_buffer_and_uniform_buffer.2 (List.range 256) 1 (by decide)
     (fun x hx => List.count_eq_one_of_mem (List.nodup_range 256) (List.mem_range.mpr hx))
     (by simp)⟩

/-- A shared object whose bytes contain the registered native symbol
`ptrace` at byte offset 4. -/
def nativeLib : SoFile :=
  { path := "lib/arm64-v8a/libnative.so", data := strToBytes "AAAAptraceBBB" }

/-- C4 (code bug): although the registry holds a native-layer `ptrace` sink
and the scanned binary contains its symbol name, the native scan emits
nothing: `scan` calls the non-existent registry method `get_sinks_by_layer`
(the registry's accessor is `get_native_symbols`, whose own docstring names
the native scanner as its consumer), raising `AttributeError`, which
`analyze_files` swallows per file.  The documented body (third conjunct)
would have emitted the hit the claim describes — library name, hex byte
offset, matched evidence, `conditional = true`. -/
theorem native_symbol_scan_never_emits :
    NativeAnalyzer.analyzeFiles scenarioRegistry [nativeLib] = [] ∧
    NativeEvidenceScanner.scan scenarioRegistry nativeLib =
      .error "AttributeError: 'SinkRegistry' object has no attribute 'get_sinks_by_layer'" ∧
    (NativeEvidenceScanner.scanAsDocumented scenarioRegistry nativeLib).map
        (fun h => (h.library, h.offset, h.evidence, h.conditional)) =
      [(some "libnative.so", some "0x4", some "ptrace", true)] := by
  refine ⟨rfl, rfl, ?_⟩
  with_unfolding_all decide

/-- A native SSL-pinning hit in `liba.so` at byte offset `0x10`, as
`_create_hit` would build it. -/
def nativeSslHitA : Hit :=
  NativeEvidenceScanner.createHit sslNativeSink "lib/arm64-v8a/liba.so" 16
    (strToBytes "SSL_set_custom_verify") true

/-- The same kind of hit in a different library at a different offset. -/
def nativeSslHitB : Hit :=
  NativeEvidenceScanner.createHit sslNativeSink "lib/arm64-v8a/libb.so" 55
    (strToBytes "SSL_set_custom_verify") true

/-- C6 counterexample: two native hits at distinct (library, offset)
locations share the classification engine's location fingerprint — it is
built from `class_name|method_name|line_number`, which every native hit fixes
to `NativeCode|BinaryInstruction|0` — so only one of them yields a candidate
in a run. -/
theorem native_fingerprint_counterexample :
    nativeSslHitA.library ≠ nativeSslHitB.library ∧
    nativeSslHitA.offset ≠ nativeSslHitB.offset ∧
    ProtectionPatternEngine.hitLocationId nativeSslHitA =
      ProtectionPatternEngine.hitLocationId nativeSslHitB ∧
    (ProtectionPatternEngine.analyze [] specIndicators
        [nativeSslHitA, nativeSslHitB]).length = 1 := by
  refine ⟨by with_unfolding_all decide, by with_unfolding_all decide, rfl, ?_⟩
  with_unfolding_all decide

/-- C6 amended: the location fingerprint does not distinguish native
locations — every hit the native scanner constructs carries the fixed
fingerprint `NativeCode|BinaryInstruction|0`, so any two native hits share
it, whatever their (library, offset). -/
theorem native_fingerprint_amended :
    (∀ sink path offset evidence is_symbol,
       ProtectionPatternEngine.hitLocationId
           (NativeEvidenceScanner.createHit sink path offset evidence is_symbol) =
         "NativeCode|BinaryInstruction|0") ∧
    (∀ s₁ p₁ o₁ e₁ b₁ s₂ p₂ o₂ e₂ b₂,
       ProtectionPatternEngine.hitLocationId
           (NativeEvidenceScanner.createHit s₁ p₁ o₁ e₁ b₁) =
         ProtectionPatternEngine.hitLocationId
           (NativeEvidenceScanner.createHit s₂ p₂ o₂ e₂ b₂)) := by
  constructor
  · intro sink path offset evidence is_symbol
    with_unfolding_all rfl
  · intro s₁ p₁ o₁ e₁ b₁ s₂ p₂ o₂ e₂ b₂
    rfl

/-- A Java-layer secure-communication hit. -/
def sslJavaHit : Hit :=
  { sink := { name := "okhttp3.CertificatePinner.check", match_type := some "fqn",
              risk := "Secure Communication", layer := "Java" }
    class_name := "com.example.App"
    method_name := "verifyIntegrity"
    line_number := 42
    arguments := []
    conditional := false
    layer := "Java" }

/-- A signature-verification hit at the same (class, method, line). -/
def sigJavaHit : Hit :=
  { sink := { name := "android.content.pm.PackageManager.getPackageInfo",
              match_type := some "fqn", risk := "Anti-Debugging", layer := "Java" }
    class_name := "com.example.App"
    method_name := "verifyIntegrity"
    line_number := 42
    arguments := ["GET_SIGNATURES"]
    conditional := false
    layer := "Java" }

/-- The shared location of the two hits above. -/
def sharedJavaLocation : Location :=
  { cls := "com.example.App", method := "verifyIntegrity", line := 42,
    layer := "Java" }

/-- C7 counterexample: on two hits sharing a location fingerprint but
matching different patterns, permuting the hit list keeps the number of
candidates but changes the set of (location, pattern_type) pairs — whichever
hit comes first claims the fingerprint for its own pattern. -/
theorem classification_pairs_order_dependent :
    List.Perm [sslJavaHit, sigJavaHit] [sigJavaHit, sslJavaHit] ∧
    (ProtectionPatternEngine.analyze [] specIndicators
        [sslJavaHit, sigJavaHit]).length =
      (ProtectionPatternEngine.analyze [] specIndicators
        [sigJavaHit, sslJavaHit]).length ∧
    (ProtectionPatternEngine.analyze [] specIndicators
        [sslJavaHit, sigJavaHit]).map (fun c => (c.location, c.pattern_type)) =
      [(sharedJavaLocation, "SSL Pinning")] ∧
    (ProtectionPatternEngine.analyze [] specIndicators
        [sigJavaHit, sslJavaHit]).map (fun c => (c.location, c.pattern_type)) =
      [(sharedJavaLocation, "Self-Protection & Anti-Analysis (Active Defense)")] ∧
    ("SSL Pinning" : String) ≠ "Self-Protection & Anti-Analysis (Active Defense)" := by
  refine ⟨List.Perm.swap sigJavaHit sslJavaHit [], ?_, ?_, ?_, by decide⟩
  · with_unfolding_all decide
  · with_unfolding_all decide
  · with_unfolding_all decide

namespace ProtectionPatternEngine

/-- The set of location fingerprints of not-yet-processed hits in `hits` on
which some matcher fires: exactly the fingerprints that will yield one
candidate each. -/
def matchedIds (frameworks : List String) (ind : Indicators)
    (processed : List String) (hits : List Hit) : Finset String :=
  ((hits.filter fun h =>
      (firstMatch frameworks ind h).isSome &&
      !(processed.contains (hitLocationId h))).map hitLocationId).toFinset

lemma insert_erase_self {α : Type} [DecidableEq α] (a : α) (s : Finset α) :
    insert a s = insert a (s.erase a) := by
  ext x
  simp only [Finset.mem_insert, Finset.mem_erase]
  constructor
  · rintro (rfl | hx)
    · exact Or.inl rfl
    · by_cases hxa : x = a
      · exact Or.inl hxa
      · exact Or.inr ⟨hxa, hx⟩
  · rintro (rfl | ⟨-, hx⟩)
    · exact Or.inl rfl
    · exact Or.inr hx

lemma matchedIds_erase (frameworks : List String) (ind : Indicators)
    (processed : List String) (t : List Hit) (fid : String) :
    matchedIds frameworks ind (fid :: processed) t =
      (matchedIds frameworks ind processed t).erase fid := by
  ext x
  simp only [matchedIds, Finset.mem_erase, List.mem_toFinset, List.mem_map,
    List.mem_filter, List.contains_cons, Bool.not_eq_true', Bool.or_eq_false_iff,
    Bool.and_eq_true, beq_eq_false_iff_ne, ne_eq]
  constructor
  · rintro ⟨w, ⟨hmem, hsome, hne, hcont⟩, rfl⟩
    exact ⟨hne, w, ⟨hmem, hsome, hcont⟩, rfl⟩
  · rintro ⟨hne, w, ⟨hmem, hsome, hcont⟩, rfl⟩
    exact ⟨w, ⟨hmem, hsome, hne, hcont⟩, rfl⟩

lemma analyzeAux_length (frameworks : List String) (ind : Indicators) :
    ∀ (hits : List Hit) (processed : List String),
      (analyzeAux frameworks ind processed hits).length =
        (matchedIds frameworks ind processed hits).card := by
  intro hits
  induction hits with
  | nil => intro processed; simp [analyzeAux, matchedIds]
  | cons h t ih =>
    intro processed
    unfold analyzeAux
    by_cases hc : processed.contains (hitLocationId h)
    · rw [if_pos hc, ih processed]
      congr 1
      unfold matchedIds
      rw [List.filter_cons_of_neg
        (by simp only [hc, Bool.not_true, Bool.and_false]; exact Bool.false_ne_true)]
    · rw [if_neg hc]
      cases hm : firstMatch frameworks ind h with
      | some c =>
        simp only [List.length_cons, ih (hitLocationId h :: processed)]
        have hstep : matchedIds frameworks ind processed (h :: t) =
            insert (hitLocationId h) (matchedIds frameworks ind processed t) := by
          unfold matchedIds
          rw [List.filter_cons_of_pos (by rw [hm]; simpa using hc), List.map_cons,
            List.toFinset_cons]
        rw [hstep, matchedIds_erase, insert_erase_self,
          Finset.card_insert_of_not_mem (Finset.not_mem_erase _ _)]
      | none =>
        rw [ih processed]
        congr 1
        unfold matchedIds
        rw [List.filter_cons_of_neg (by simp [hm])]

end ProtectionPatternEngine

/-- C7 amended: the number of candidates the classification engine emits is
invariant under permutation of the hit list (it is the number of distinct
location fingerprints carrying at least one matching hit), and repeated runs
on the identical list coincide since `analyze` is a pure function of its
input with a per-run processed set; the *set of (location, pattern_type)
pairs*, however, is not order-independent when hits sharing a fingerprint
match different patterns. -/
theorem classification_candidate_count_permutation_invariant :
    ∀ (frameworks : List String) (ind : Indicators) (hits₁ hits₂ : List Hit),
      hits₁.Perm hits₂ →
      (ProtectionPatternEngine.analyze frameworks ind hits₁).length =
        (ProtectionPatternEngine.analyze frameworks ind hits₂).length := by
  intro fw ind l1 l2 hperm
  unfold ProtectionPatternEngine.analyze
  rw [ProtectionPatternEngine.analyzeAux_length, ProtectionPatternEngine.analyzeAux_length]
  unfold ProtectionPatternEngine.matchedIds
  congr 1
  exact List.toFinset_eq_of_perm _ _ ((hperm.filter _).map _)

/-- Witness for C7's amended theorem: the two same-fingerprint hits above, in
both orders. -/
theorem classification_candidate_count_permutation_invariant_witness :
    (ProtectionPatternEngine.analyze [] specIndicators
        [sslJavaHit, sigJavaHit]).length =
      (ProtectionPatternEngine.analyze [] specIndicators
        [sigJavaHit, sslJavaHit]).length :=
  classification_candidate_count_permutation_invariant [] specIndicators
    [sslJavaHit, sigJavaHit] [sigJavaHit, sslJavaHit]
    (List.Perm.swap sigJavaHit sslJavaHit [])

/-- C5 counterexample: with the sink-catalog load failed (and the indicator
catalog loaded), the engine run is not fatal — the registry constructor
swallows the failure and returns a registry with an empty catalog, the
pipeline proceeds, and on a class containing the §8 scenario method the run
returns one finding (score 0.6, from the string-indicator path) and one
grouped entry, not the empty results the claim asserts. -/
theorem catalog_load_failure_not_fatal_counterexample :
    SinkRegistry.init none (some specIndicators) = Except.ok failedLoadRegistry ∧
    (runAnalysis (fun _ _ => false) none (some specIndicators)
        [rootCheckerClass] [] []).1.map
        (fun f => (f.protection_type, f.confidence_score)) =
      [("Root Detection (High Confidence)", 0.6)] ∧
    (runAnalysis (fun _ _ => false) none (some specIndicators)
        [rootCheckerClass] [] []).2.length = 1 := by
  refine ⟨rfl, ?_, ?_⟩
  · with_unfolding_all rfl
  · with_unfolding_all rfl

/-- C5 amended: a sink-catalog load failure is not fatal.
`SinkRegistry.__init__` catches it and constructs with an empty catalog
(first conjunct: construction succeeds for every load outcome), so
`run_analysis` never takes its step-1 error return on a load failure; the
downstream stages still run, and with the indicator catalog loaded they can
still produce findings (second and third conjuncts: the concrete failed-load
run yields a non-empty finding list and group map). -/
theorem catalog_load_failure_not_fatal :
    (∀ catalogLoad indicatorsLoad,
       SinkRegistry.init catalogLoad indicatorsLoad =
         Except.ok
           { flattened_sinks := SinkRegistry.flattenCatalog (catalogLoad.getD [])
             indicators := indicatorsLoad.getD Indicators.empty }) ∧
    (runAnalysis (fun _ _ => false) none (some specIndicators)
        [rootCheckerClass] [] []).1.length = 1 ∧
    (runAnalysis (fun _ _ => false) none (some specIndicators)
        [rootCheckerClass] [] []).2.length = 1 := by
  refine ⟨fun _ _ => rfl, ?_, ?_⟩
  · with_unfolding_all rfl
  · with_unfolding_all rfl

end MILEA
